import Mathlib

/-!
Verification of the pcdDecode Photo CD decoder (pcdtojpeg, pcdDecode.cpp /
pcdDecode.h). The C++ decoder core is shallowly embedded: machine integers
become Nat or Int with explicit masking where the code masks, the sector
buffered bit stream becomes a record with the remaining bytes as a list, and
file system outcomes become explicit oracle records. Every definition is a
direct transcription of the corresponding source function; deviations forced
by the embedding (fuel for while loops, a function for a 64K lookup array)
are noted in the doc comments.
-/

namespace Pcd

/-! ## Resolution constants (enum PCDResolutions, pcdDecode.h) -/

def kBase16 : Nat := 0

def kBase4 : Nat := 1

def kBase : Nat := 2

def k4Base : Nat := 3

def k16Base : Nat := 4

def k64Base : Nat := 5

def kMaxScenes : Nat := 6

/-! ## Decoder behaviour tables (pcdDecode.cpp, definition tables section) -/

def PCDLumaWidth : List Nat := [192, 192 * 2, 192 * 4, 192 * 8, 192 * 16, 192 * 32]

def PCDLumaHeight : List Nat := [128, 128 * 2, 128 * 4, 128 * 8, 128 * 16, 128 * 32]

def PCDChromaWidth : List Nat := [96, 96 * 2, 96 * 4, 96 * 4, 96 * 16, 96 * 32]

def PCDChromaHeight : List Nat := [64, 64 * 2, 64 * 4, 64 * 4, 64 * 16, 64 * 32]

def PCDChromaResFactor : List Nat := [1, 1, 1, 1, 1, 1]

def RowShift : List Nat := [0, 0, 0, 9, 9, 6]

def RowMask : List Nat := [0, 0, 0, 0x1fff, 0x1fff, 0x3fff]

def RowSubSample : List Nat := [1, 1, 1, 1, 1, 2]

def SequenceShift : List Nat := [0, 0, 0, 0, 0, 1]

def SequenceMask : List Nat := [0, 0, 0, 0, 0x0, 0xf]

def PlaneShift : List Nat := [0, 0, 0, 22, 22, 19]

def PlaneMask : List Nat := [0, 0, 0, 0x3, 0x3, 0x6]

def HuffmanHeaderSize : List Nat := [0, 0, 0, 3, 3, 4]

/-! ## Bit stream reader (struct ReadBuffer, PCDGetBits, syncHuffman) -/

/-- struct ReadBuffer. sum is the 32-bit shift register, bits the bit count.
The 2048-byte sector buffer, the read pointer into it and the open file are
flattened into data, the list of all bytes not yet transferred into the shift
register; readNextSector failing at end of file is data running out. -/
structure ReadBuffer where
  sum : Nat
  bits : Nat
  data : List Nat
deriving DecidableEq

/-- The refill loop of PCDGetBits: while bits <= 24, or in the next byte of
the stream at position 24 - bits and advance. Running out of bytes is the
thrown "Unexpected end of file in Huffman sequence", modelled as none. The
loop adds 8 bits per iteration towards the bound of 24, so it runs at most
four times; the structural fuel of fillBits makes that explicit. -/
def fillBitsAux : Nat → ReadBuffer → Option ReadBuffer
  | 0, b => some b
  | fuel + 1, b =>
    if b.bits ≤ 24 then
      match b.data with
      | [] => none
      | byte :: rest =>
          fillBitsAux fuel
            { sum := b.sum ||| (byte <<< (24 - b.bits)), bits := b.bits + 8, data := rest }
    else some b

/-- The refill loop with its exact iteration bound: from any bit count, four
additions of 8 bits exceed 24, so fillBitsAux with fuel 4 never stops early. -/
def fillBits (b : ReadBuffer) : Option ReadBuffer :=
  fillBitsAux 4 b

/-- PCDGetBits: shift the register left by n, masked to 32 bits, consume n
from the bit count, then refill. In the decoder every call happens with
n <= 24 < bits, where C unsigned subtraction and Nat subtraction agree. -/
def PCDGetBits (b : ReadBuffer) (n : Nat) : Option ReadBuffer :=
  fillBits { sum := (b.sum <<< n) &&& 0xffffffff, bits := b.bits - n, data := b.data }

/-- initReadBuffer: clear the shift register, point past the sector buffer and
let PCDGetBits 0 pull in the first bytes. -/
def initReadBuffer (data : List Nat) : Option ReadBuffer :=
  PCDGetBits { sum := 0, bits := 0, data := data } 0

/-- First loop of syncHuffman: skip 8 bits at a time until bits 23..12 of the
shift register are all ones. The C while loop is given fuel; with the fuel
supplied by syncHuffman below the loop runs out of fuel only on streams it
would scan past end of file anyway, which PCDGetBits reports as none. -/
def syncByteLoop : Nat → ReadBuffer → Option ReadBuffer
  | 0, _ => none
  | fuel + 1, b =>
    if (b.sum &&& 0x00fff000) == 0x00fff000 then some b
    else
      match PCDGetBits b 8 with
      | none => none
      | some b2 => syncByteLoop fuel b2

/-- Second loop of syncHuffman: advance a single bit at a time until the top
24 bits of the shift register are 0xfffffe. -/
def syncBitLoop : Nat → ReadBuffer → Option ReadBuffer
  | 0, _ => none
  | fuel + 1, b =>
    if (b.sum &&& 0xffffff00) == 0xfffffe00 then some b
    else
      match PCDGetBits b 1 with
      | none => none
      | some b2 => syncBitLoop fuel b2

/-- syncHuffman: byte-step to the 12-ones marker, then bit-step until the top
24 bits of the register equal 0xfffffe. Fuel 8*|data| + bits + 1 dominates
the number of iterations possible before the stream is exhausted. -/
def syncHuffman (b : ReadBuffer) : Option ReadBuffer :=
  match syncByteLoop (8 * b.data.length + b.bits + 1) b with
  | none => none
  | some b2 => syncBitLoop (8 * b2.data.length + b2.bits + 1) b2

/-! ## Huffman decoder (struct huffTable, PCDDecodeHuffman) -/

/-- struct huffTable: the two 65536-entry lookup arrays, modelled as functions
of the 16-bit index. -/
structure HuffTable where
  key : Nat → Nat
  len : Nat → Nat

def kHuffmanErrorLen : Nat := 0x1f

/-- The body of the error recovery branch of PCDDecodeHuffman:
for (i = 0; i < length; i++) *dest++ = 0x0; with dest still pointing at the
start of the sequence, so the whole destination range dstart..dstart+length-1
is zeroed, the symbols already decoded included. The destination plane is a
list of bytes, dstart the offset of the dest pointer inside it. -/
def zeroSequence (dest : List Nat) (dstart length : Nat) : List Nat :=
  (List.range length).foldl (fun d j => d.set (dstart + j) 0) dest

/-- The decode loop of PCDDecodeHuffman. The C loop counts i from 0 to
length; here the remaining count length - i is the structural recursion
argument and i is carried alongside, so the iterations are identical. The
third component of the result records whether the Huffman sequence error
recovery branch ran (the branch that prints the recovery warning in the C
source). -/
def decodeLoop (huf : HuffTable) (dstart length : Nat) :
    Nat → Nat → ReadBuffer → List Nat → Option (List Nat × ReadBuffer × Bool)
  | 0, _, b, dest => some (dest, b, false)
  | remaining + 1, i, b, dest =>
    let code := (b.sum >>> 16) &&& 0xffff
    if huf.len code == kHuffmanErrorLen then
      match syncHuffman b with
      | none => none
      | some b2 => some (zeroSequence dest dstart length, b2, true)
    else
      match PCDGetBits b (huf.len code) with
      | none => none
      | some b2 => decodeLoop huf dstart length remaining (i + 1) b2
          (dest.set (dstart + i) (huf.key code))

/-- PCDDecodeHuffman: decode length symbols into dest starting at dstart; on
the kHuffmanErrorLen sentinel zero the sequence, resync and return. -/
def PCDDecodeHuffman (b : ReadBuffer) (huf : HuffTable) (dest : List Nat)
    (dstart length : Nat) : Option (List Nat × ReadBuffer × Bool) :=
  decodeLoop huf dstart length length 0 b dest

/-! ## Sequence header field extraction (readPCDDeltas) -/

/-- row = (buf->sum >> RowShift[sceneSelect]) & RowMask[sceneSelect]. -/
def deltaHeaderRow (sceneSelect sum : Nat) : Nat :=
  (sum >>> RowShift.getD sceneSelect 0) &&& RowMask.getD sceneSelect 0

/-- sequence = (buf->sum >> SequenceShift[sceneSelect]) & SequenceMask[sceneSelect]. -/
def deltaHeaderSequence (sceneSelect sum : Nat) : Nat :=
  (sum >>> SequenceShift.getD sceneSelect 0) &&& SequenceMask.getD sceneSelect 0

/-- plane = (buf->sum >> PlaneShift[sceneSelect]) & PlaneMask[sceneSelect]. -/
def deltaHeaderPlane (sceneSelect sum : Nat) : Nat :=
  (sum >>> PlaneShift.getD sceneSelect 0) &&& PlaneMask.getD sceneSelect 0

/-- row *= (plane == 0 ? 1 : RowSubSample[sceneSelect]): the row index after
the subsample scaling, which applies to the non-luma planes only. -/
def deltaHeaderRowScaled (sceneSelect sum : Nat) : Nat :=
  deltaHeaderRow sceneSelect sum *
    (if deltaHeaderPlane sceneSelect sum == 0 then 1 else RowSubSample.getD sceneSelect 1)

/-! ## Concrete Huffman decode run used for claim C4 -/

/-- Bytes of a small Huffman stream: a one bit (one valid symbol), then a
zero bit so the next table index has the error sentinel, then the sync
marker 0xfffffe left-aligned in the remaining bytes. -/
def huffDemoData : List Nat := [0x80, 0x00, 0xFF, 0xFF, 0xFF, 0xFE, 0x00, 0x00, 0x00, 0x00]

/-- The read buffer after initReadBuffer on huffDemoData. -/
def huffDemoRB : ReadBuffer :=
  (initReadBuffer huffDemoData).getD { sum := 0, bits := 0, data := [] }

/-- A decoding table in which every index starting with a one bit decodes to
symbol 42 with code length 1, and every other index holds the error sentinel
(key 0x7f, length 31), exactly as readHuffTable initialises unused entries. -/
def huffDemoTable : HuffTable :=
  { key := fun loc => if 0x8000 ≤ loc then 42 else 0x7f,
    len := fun loc => if 0x8000 ≤ loc then 1 else 31 }

/-! ## Color spaces and output sizes (pcdDecode.h, pcdDecode.cpp) -/

def kPCDRawColorSpace : Nat := 0

def kPCDLinearCCIR709ColorSpace : Nat := 1

def kPCDsRGBColorSpace : Nat := 2

def kPCDYCCColorSpace : Nat := 3

def kPCDD65White : Nat := 0

def kPCDD50White : Nat := 1

def kUpResNearest : Nat := 0

def kUpResIterpolate : Nat := 1

def kUpResLumaIterpolate : Nat := 2

def pcdByteSize : Nat := 0

def pcdInt16Size : Nat := 1

def pcdFloatSize : Nat := 2

def kMaxPCDMetadata : Nat := 20

/-- pcdPin(low, x, high), on int32 values. -/
def pcdPin (low x high : Int) : Int :=
  if x < low then low else if x > high then high else x

/-- The RGB-mode index computation of convertToRGB: with L the luma byte and
c1, c2 the chroma bytes (none when the corresponding chroma pointer is NULL,
leaving C1i or C2i at their initial 0), compute Li, C1i, C2i and the pinned
R, G, B indices. All int32 arithmetic stays far from overflow (the source
comments give the ranges); the C right shift of a negative int32 is an
arithmetic shift, which is Int shift, and C division truncates toward zero,
which is Int.tdiv. -/
def rgbIndices (L : Nat) (c1 c2 : Option Nat) : Int × Int × Int :=
  let Li : Int := (L : Int) * 5573
  let C1i : Int := match c1 with
    | some v => ((v : Int) - 156) * 9085
    | none => 0
  let C2i : Int := match c2 with
    | some v => ((v : Int) - 137) * 7461
    | none => 0
  (pcdPin 0 ((Li + C2i) >>> 10) 1388,
   pcdPin 0 ((Li >>> 10) - Int.tdiv C1i 5278 - Int.tdiv C2i 2012) 1388,
   pcdPin 0 ((Li + C1i) >>> 10) 1388)

/-- Modelled from the specification text of claim C7, for comparison with
rgbIndices: Li = L*5573, C1i = (c1-156)*9085, C2i = (c2-137)*7461,
R = clamp((Li+C2i)>>10, 0, 1388), G = clamp((Li>>10) - C1i/5278 - C2i/2012,
0, 1388), B = clamp((Li+C1i)>>10, 0, 1388), with truncating division. -/
def specRGBIndices (L c1 c2 : Nat) : Int × Int × Int :=
  let Li : Int := (L : Int) * 5573
  let C1i : Int := ((c1 : Int) - 156) * 9085
  let C2i : Int := ((c2 : Int) - 137) * 7461
  (pcdPin 0 ((Li + C2i) >>> 10) 1388,
   pcdPin 0 ((Li >>> 10) - Int.tdiv C1i 5278 - Int.tdiv C2i 2012) 1388,
   pcdPin 0 ((Li + C1i) >>> 10) 1388)

/-! ## Rotation address generation and rotated dimensions -/

/-- Destination index of convertToRGB for source pixel (row, col): the switch
on rd->imageRotate; columns and rows are the pre-rotation luma dimensions
and d is the pointer stride. -/
def destIndex (imageRotate columns rows d row col : Nat) : Nat :=
  match imageRotate with
  | 0 => (col + row * columns) * d
  | 1 => (row + (columns - 1 - col) * rows) * d
  | 2 => (columns - 1 - col + (rows - 1 - row) * columns) * d
  | 3 => (rows - 1 - row + col * rows) * d
  | _ => (col + row * columns) * d

/-- pcdDecode::getWidth: the post-rotation width. -/
def getWidth (imageRotate sceneNumber : Nat) : Nat :=
  match imageRotate with
  | 0 => PCDLumaWidth.getD sceneNumber 0
  | 1 => PCDLumaHeight.getD sceneNumber 0
  | 2 => PCDLumaWidth.getD sceneNumber 0
  | 3 => PCDLumaHeight.getD sceneNumber 0
  | _ => PCDLumaWidth.getD sceneNumber 0

/-- pcdDecode::getHeight: the post-rotation height. -/
def getHeight (imageRotate sceneNumber : Nat) : Nat :=
  match imageRotate with
  | 0 => PCDLumaHeight.getD sceneNumber 0
  | 1 => PCDLumaWidth.getD sceneNumber 0
  | 2 => PCDLumaHeight.getD sceneNumber 0
  | 3 => PCDLumaWidth.getD sceneNumber 0
  | _ => PCDLumaHeight.getD sceneNumber 0

/-! ## Color conversion lookup tables (static const arrays, pcdDecode.cpp) -/

/-- Lookup table toLinearLight (pcdDecode.cpp): PCD opto-electronic transfer
function inverse, index 0..1388. -/
def toLinearLight : List Nat := [
  0x0000, 0x0000, 0x0000, 0x0000, 0x0000, 0x0000, 0x0000, 0x0001, 0x0001, 0x0001, 0x0001, 0x0001, 0x0001, 0x0002, 0x0002, 0x0002,
  0x0002, 0x0002, 0x0002, 0x0003, 0x0003, 0x0003, 0x0003, 0x0003, 0x0003, 0x0004, 0x0004, 0x0004, 0x0004, 0x0004, 0x0004, 0x0005,
  0x0005, 0x0005, 0x0005, 0x0005, 0x0005, 0x0005, 0x0006, 0x0006, 0x0006, 0x0006, 0x0006, 0x0006, 0x0007, 0x0007, 0x0007, 0x0007,
  0x0007, 0x0007, 0x0008, 0x0008, 0x0008, 0x0008, 0x0008, 0x0008, 0x0009, 0x0009, 0x0009, 0x0009, 0x0009, 0x0009, 0x000a, 0x000a,
  0x000a, 0x000a, 0x000a, 0x000a, 0x000a, 0x000b, 0x000b, 0x000b, 0x000b, 0x000b, 0x000b, 0x000c, 0x000c, 0x000c, 0x000c, 0x000c,
  0x000c, 0x000d, 0x000d, 0x000d, 0x000d, 0x000d, 0x000d, 0x000e, 0x000e, 0x000e, 0x000e, 0x000e, 0x000e, 0x000f, 0x000f, 0x000f,
  0x000f, 0x000f, 0x000f, 0x0010, 0x0010, 0x0010, 0x0010, 0x0010, 0x0010, 0x0011, 0x0011, 0x0011, 0x0011, 0x0011, 0x0012, 0x0012,
  0x0012, 0x0012, 0x0012, 0x0013, 0x0013, 0x0013, 0x0013, 0x0013, 0x0014, 0x0014, 0x0014, 0x0014, 0x0014, 0x0015, 0x0015, 0x0015,
  0x0015, 0x0015, 0x0016, 0x0016, 0x0016, 0x0016, 0x0017, 0x0017, 0x0017, 0x0017, 0x0017, 0x0018, 0x0018, 0x0018, 0x0018, 0x0019,
  0x0019, 0x0019, 0x0019, 0x0019, 0x001a, 0x001a, 0x001a, 0x001a, 0x001b, 0x001b, 0x001b, 0x001b, 0x001c, 0x001c, 0x001c, 0x001c,
  0x001d, 0x001d, 0x001d, 0x001d, 0x001e, 0x001e, 0x001e, 0x001e, 0x001f, 0x001f, 0x001f, 0x001f, 0x0020, 0x0020, 0x0020, 0x0020,
  0x0021, 0x0021, 0x0021, 0x0021, 0x0022, 0x0022, 0x0022, 0x0023, 0x0023, 0x0023, 0x0023, 0x0024, 0x0024, 0x0024, 0x0024, 0x0025,
  0x0025, 0x0025, 0x0026, 0x0026, 0x0026, 0x0026, 0x0027, 0x0027, 0x0027, 0x0028, 0x0028, 0x0028, 0x0029, 0x0029, 0x0029, 0x0029,
  0x002a, 0x002a, 0x002a, 0x002b, 0x002b, 0x002b, 0x002c, 0x002c, 0x002c, 0x002d, 0x002d, 0x002d, 0x002d, 0x002e, 0x002e, 0x002e,
  0x002f, 0x002f, 0x002f, 0x0030, 0x0030, 0x0030, 0x0031, 0x0031, 0x0031, 0x0032, 0x0032, 0x0032, 0x0033, 0x0033, 0x0033, 0x0034,
  0x0034, 0x0034, 0x0035, 0x0035, 0x0035, 0x0036, 0x0036, 0x0036, 0x0037, 0x0037, 0x0038, 0x0038, 0x0038, 0x0039, 0x0039, 0x0039,
  0x003a, 0x003a, 0x003a, 0x003b, 0x003b, 0x003c, 0x003c, 0x003c, 0x003d, 0x003d, 0x003d, 0x003e, 0x003e, 0x003f, 0x003f, 0x003f,
  0x0040, 0x0040, 0x0040, 0x0041, 0x0041, 0x0042, 0x0042, 0x0042, 0x0043, 0x0043, 0x0044, 0x0044, 0x0044, 0x0045, 0x0045, 0x0046,
  0x0046, 0x0046, 0x0047, 0x0047, 0x0048, 0x0048, 0x0048, 0x0049, 0x0049, 0x004a, 0x004a, 0x004a, 0x004b, 0x004b, 0x004c, 0x004c,
  0x004d, 0x004d, 0x004d, 0x004e, 0x004e, 0x004f, 0x004f, 0x004f, 0x0050, 0x0050, 0x0051, 0x0051, 0x0052, 0x0052, 0x0053, 0x0053,
  0x0053, 0x0054, 0x0054, 0x0055, 0x0055, 0x0056, 0x0056, 0x0057, 0x0057, 0x0057, 0x0058, 0x0058, 0x0059, 0x0059, 0x005a, 0x005a,
  0x005b, 0x005b, 0x005c, 0x005c, 0x005d, 0x005d, 0x005d, 0x005e, 0x005e, 0x005f, 0x005f, 0x0060, 0x0060, 0x0061, 0x0061, 0x0062,
  0x0062, 0x0063, 0x0063, 0x0064, 0x0064, 0x0065, 0x0065, 0x0066, 0x0066, 0x0067, 0x0067, 0x0068, 0x0068, 0x0069, 0x0069, 0x006a,
  0x006a, 0x006b, 0x006b, 0x006c, 0x006c, 0x006d, 0x006d, 0x006e, 0x006e, 0x006f, 0x006f, 0x0070, 0x0070, 0x0071, 0x0071, 0x0072,
  0x0072, 0x0073, 0x0073, 0x0074, 0x0075, 0x0075, 0x0076, 0x0076, 0x0077, 0x0077, 0x0078, 0x0078, 0x0079, 0x0079, 0x007a, 0x007a,
  0x007b, 0x007c, 0x007c, 0x007d, 0x007d, 0x007e, 0x007e, 0x007f, 0x007f, 0x0080, 0x0081, 0x0081, 0x0082, 0x0082, 0x0083, 0x0083,
  0x0084, 0x0084, 0x0085, 0x0086, 0x0086, 0x0087, 0x0087, 0x0088, 0x0089, 0x0089, 0x008a, 0x008a, 0x008b, 0x008b, 0x008c, 0x008d,
  0x008d, 0x008e, 0x008e, 0x008f, 0x0090, 0x0090, 0x0091, 0x0091, 0x0092, 0x0093, 0x0093, 0x0094, 0x0094, 0x0095, 0x0096, 0x0096,
  0x0097, 0x0097, 0x0098, 0x0099, 0x0099, 0x009a, 0x009b, 0x009b, 0x009c, 0x009c, 0x009d, 0x009e, 0x009e, 0x009f, 0x00a0, 0x00a0,
  0x00a1, 0x00a1, 0x00a2, 0x00a3, 0x00a3, 0x00a4, 0x00a5, 0x00a5, 0x00a6, 0x00a7, 0x00a7, 0x00a8, 0x00a8, 0x00a9, 0x00aa, 0x00aa,
  0x00ab, 0x00ac, 0x00ac, 0x00ad, 0x00ae, 0x00ae, 0x00af, 0x00b0, 0x00b0, 0x00b1, 0x00b2, 0x00b2, 0x00b3, 0x00b4, 0x00b4, 0x00b5,
  0x00b6, 0x00b6, 0x00b7, 0x00b8, 0x00b8, 0x00b9, 0x00ba, 0x00bb, 0x00bb, 0x00bc, 0x00bd, 0x00bd, 0x00be, 0x00bf, 0x00bf, 0x00c0,
  0x00c1, 0x00c1, 0x00c2, 0x00c3, 0x00c4, 0x00c4, 0x00c5, 0x00c6, 0x00c6, 0x00c7, 0x00c8, 0x00c9, 0x00c9, 0x00ca, 0x00cb, 0x00cb,
  0x00cc, 0x00cd, 0x00ce, 0x00ce, 0x00cf, 0x00d0, 0x00d1, 0x00d1, 0x00d2, 0x00d3, 0x00d3, 0x00d4, 0x00d5, 0x00d6, 0x00d6, 0x00d7,
  0x00d8, 0x00d9, 0x00d9, 0x00da, 0x00db, 0x00dc, 0x00dc, 0x00dd, 0x00de, 0x00df, 0x00df, 0x00e0, 0x00e1, 0x00e2, 0x00e2, 0x00e3,
  0x00e4, 0x00e5, 0x00e6, 0x00e6, 0x00e7, 0x00e8, 0x00e9, 0x00e9, 0x00ea, 0x00eb, 0x00ec, 0x00ed, 0x00ed, 0x00ee, 0x00ef, 0x00f0,
  0x00f0, 0x00f1, 0x00f2, 0x00f3, 0x00f4, 0x00f4, 0x00f5, 0x00f6, 0x00f7, 0x00f8, 0x00f8, 0x00f9, 0x00fa, 0x00fb, 0x00fc, 0x00fd,
  0x00fd, 0x00fe, 0x00ff, 0x0100, 0x0101, 0x0101, 0x0102, 0x0103, 0x0104, 0x0105, 0x0106, 0x0106, 0x0107, 0x0108, 0x0109, 0x010a,
  0x010b, 0x010b, 0x010c, 0x010d, 0x010e, 0x010f, 0x0110, 0x0110, 0x0111, 0x0112, 0x0113, 0x0114, 0x0115, 0x0116, 0x0116, 0x0117,
  0x0118, 0x0119, 0x011a, 0x011b, 0x011c, 0x011c, 0x011d, 0x011e, 0x011f, 0x0120, 0x0121, 0x0122, 0x0123, 0x0123, 0x0124, 0x0125,
  0x0126, 0x0127, 0x0128, 0x0129, 0x012a, 0x012a, 0x012b, 0x012c, 0x012d, 0x012e, 0x012f, 0x0130, 0x0131, 0x0132, 0x0133, 0x0133,
  0x0134, 0x0135, 0x0136, 0x0137, 0x0138, 0x0139, 0x013a, 0x013b, 0x013c, 0x013d, 0x013d, 0x013e, 0x013f, 0x0140, 0x0141, 0x0142,
  0x0143, 0x0144, 0x0145, 0x0146, 0x0147, 0x0148, 0x0149, 0x014a, 0x014b, 0x014b, 0x014c, 0x014d, 0x014e, 0x014f, 0x0150, 0x0151,
  0x0152, 0x0153, 0x0154, 0x0155, 0x0156, 0x0157, 0x0158, 0x0159, 0x015a, 0x015b, 0x015c, 0x015d, 0x015e, 0x015f, 0x0160, 0x0161,
  0x0162, 0x0163, 0x0163, 0x0164, 0x0165, 0x0166, 0x0167, 0x0168, 0x0169, 0x016a, 0x016b, 0x016c, 0x016d, 0x016e, 0x016f, 0x0170,
  0x0171, 0x0172, 0x0173, 0x0174, 0x0175, 0x0176, 0x0177, 0x0178, 0x0179, 0x017a, 0x017b, 0x017c, 0x017d, 0x017e, 0x0180, 0x0181,
  0x0182, 0x0183, 0x0184, 0x0185, 0x0186, 0x0187, 0x0188, 0x0189, 0x018a, 0x018b, 0x018c, 0x018d, 0x018e, 0x018f, 0x0190, 0x0191,
  0x0192, 0x0193, 0x0194, 0x0195, 0x0196, 0x0197, 0x0198, 0x019a, 0x019b, 0x019c, 0x019d, 0x019e, 0x019f, 0x01a0, 0x01a1, 0x01a2,
  0x01a3, 0x01a4, 0x01a5, 0x01a6, 0x01a7, 0x01a8, 0x01aa, 0x01ab, 0x01ac, 0x01ad, 0x01ae, 0x01af, 0x01b0, 0x01b1, 0x01b2, 0x01b3,
  0x01b4, 0x01b6, 0x01b7, 0x01b8, 0x01b9, 0x01ba, 0x01bb, 0x01bc, 0x01bd, 0x01be, 0x01bf, 0x01c1, 0x01c2, 0x01c3, 0x01c4, 0x01c5,
  0x01c6, 0x01c7, 0x01c8, 0x01ca, 0x01cb, 0x01cc, 0x01cd, 0x01ce, 0x01cf, 0x01d0, 0x01d1, 0x01d3, 0x01d4, 0x01d5, 0x01d6, 0x01d7,
  0x01d8, 0x01d9, 0x01db, 0x01dc, 0x01dd, 0x01de, 0x01df, 0x01e0, 0x01e2, 0x01e3, 0x01e4, 0x01e5, 0x01e6, 0x01e7, 0x01e9, 0x01ea,
  0x01eb, 0x01ec, 0x01ed, 0x01ee, 0x01f0, 0x01f1, 0x01f2, 0x01f3, 0x01f4, 0x01f5, 0x01f7, 0x01f8, 0x01f9, 0x01fa, 0x01fb, 0x01fd,
  0x01fe, 0x01ff, 0x0200, 0x0201, 0x0203, 0x0204, 0x0205, 0x0206, 0x0207, 0x0209, 0x020a, 0x020b, 0x020c, 0x020d, 0x020f, 0x0210,
  0x0211, 0x0212, 0x0214, 0x0215, 0x0216, 0x0217, 0x0218, 0x021a, 0x021b, 0x021c, 0x021d, 0x021f, 0x0220, 0x0221, 0x0222, 0x0224,
  0x0225, 0x0226, 0x0227, 0x0229, 0x022a, 0x022b, 0x022c, 0x022e, 0x022f, 0x0230, 0x0231, 0x0233, 0x0234, 0x0235, 0x0236, 0x0238,
  0x0239, 0x023a, 0x023b, 0x023d, 0x023e, 0x023f, 0x0241, 0x0242, 0x0243, 0x0244, 0x0246, 0x0247, 0x0248, 0x0249, 0x024b, 0x024c,
  0x024d, 0x024f, 0x0250, 0x0251, 0x0253, 0x0254, 0x0255, 0x0256, 0x0258, 0x0259, 0x025a, 0x025c, 0x025d, 0x025e, 0x0260, 0x0261,
  0x0262, 0x0264, 0x0265, 0x0266, 0x0268, 0x0269, 0x026a, 0x026c, 0x026d, 0x026e, 0x0270, 0x0271, 0x0272, 0x0274, 0x0275, 0x0276,
  0x0278, 0x0279, 0x027a, 0x027c, 0x027d, 0x027e, 0x0280, 0x0281, 0x0282, 0x0284, 0x0285, 0x0286, 0x0288, 0x0289, 0x028b, 0x028c,
  0x028d, 0x028f, 0x0290, 0x0291, 0x0293, 0x0294, 0x0295, 0x0297, 0x0298, 0x029a, 0x029b, 0x029c, 0x029e, 0x029f, 0x02a1, 0x02a2,
  0x02a3, 0x02a5, 0x02a6, 0x02a8, 0x02a9, 0x02aa, 0x02ac, 0x02ad, 0x02af, 0x02b0, 0x02b1, 0x02b3, 0x02b4, 0x02b6, 0x02b7, 0x02b8,
  0x02ba, 0x02bb, 0x02bd, 0x02be, 0x02c0, 0x02c1, 0x02c2, 0x02c4, 0x02c5, 0x02c7, 0x02c8, 0x02ca, 0x02cb, 0x02cc, 0x02ce, 0x02cf,
  0x02d1, 0x02d2, 0x02d4, 0x02d5, 0x02d7, 0x02d8, 0x02d9, 0x02db, 0x02dc, 0x02de, 0x02df, 0x02e1, 0x02e2, 0x02e4, 0x02e5, 0x02e7,
  0x02e8, 0x02ea, 0x02eb, 0x02ed, 0x02ee, 0x02ef, 0x02f1, 0x02f2, 0x02f4, 0x02f5, 0x02f7, 0x02f8, 0x02fa, 0x02fb, 0x02fd, 0x02fe,
  0x0300, 0x0301, 0x0303, 0x0304, 0x0306, 0x0307, 0x0309, 0x030a, 0x030c, 0x030d, 0x030f, 0x0310, 0x0312, 0x0313, 0x0315, 0x0316,
  0x0318, 0x0319, 0x031b, 0x031d, 0x031e, 0x0320, 0x0321, 0x0323, 0x0324, 0x0326, 0x0327, 0x0329, 0x032a, 0x032c, 0x032d, 0x032f,
  0x0331, 0x0332, 0x0334, 0x0335, 0x0337, 0x0338, 0x033a, 0x033b, 0x033d, 0x033f, 0x0340, 0x0342, 0x0343, 0x0345, 0x0346, 0x0348,
  0x0349, 0x034b, 0x034d, 0x034e, 0x0350, 0x0351, 0x0353, 0x0355, 0x0356, 0x0358, 0x0359, 0x035b, 0x035c, 0x035e, 0x0360, 0x0361,
  0x0363, 0x0364, 0x0366, 0x0368, 0x0369, 0x036b, 0x036c, 0x036e, 0x0370, 0x0371, 0x0373, 0x0375, 0x0376, 0x0378, 0x0379, 0x037b,
  0x037d, 0x037e, 0x0380, 0x0382, 0x0383, 0x0385, 0x0386, 0x0388, 0x038a, 0x038b, 0x038d, 0x038f, 0x0390, 0x0392, 0x0394, 0x0395,
  0x0397, 0x0399, 0x039a, 0x039c, 0x039d, 0x039f, 0x03a1, 0x03a2, 0x03a4, 0x03a6, 0x03a7, 0x03a9, 0x03ab, 0x03ac, 0x03ae, 0x03b0,
  0x03b1, 0x03b3, 0x03b5, 0x03b7, 0x03b8, 0x03ba, 0x03bc, 0x03bd, 0x03bf, 0x03c1, 0x03c2, 0x03c4, 0x03c6, 0x03c7, 0x03c9, 0x03cb,
  0x03cd, 0x03ce, 0x03d0, 0x03d2, 0x03d3, 0x03d5, 0x03d7, 0x03d9, 0x03da, 0x03dc, 0x03de, 0x03df, 0x03e1, 0x03e3, 0x03e5, 0x03e6,
  0x03e8, 0x03ea, 0x03eb, 0x03ed, 0x03ef, 0x03f1, 0x03f2, 0x03f4, 0x03f6, 0x03f8, 0x03f9, 0x03fb, 0x03fd, 0x03ff, 0x0400, 0x0402,
  0x0404, 0x0406, 0x0407, 0x0409, 0x040b, 0x040d, 0x040e, 0x0410, 0x0412, 0x0414, 0x0416, 0x0417, 0x0419, 0x041b, 0x041d, 0x041e,
  0x0420, 0x0422, 0x0424, 0x0426, 0x0427, 0x0429, 0x042b, 0x042d, 0x042f, 0x0430, 0x0432, 0x0434, 0x0436, 0x0438, 0x0439, 0x043b,
  0x043d, 0x043f, 0x0441, 0x0442, 0x0444, 0x0446, 0x0448, 0x044a, 0x044b, 0x044d, 0x044f, 0x0451, 0x0453, 0x0455, 0x0456, 0x0458,
  0x045a, 0x045c, 0x045e, 0x0460, 0x0461, 0x0463, 0x0465, 0x0467, 0x0469, 0x046b, 0x046d, 0x046e, 0x0470, 0x0472, 0x0474, 0x0476,
  0x0478, 0x047a, 0x047b, 0x047d, 0x047f, 0x0481, 0x0483, 0x0485, 0x0487, 0x0488, 0x048a, 0x048c, 0x048e, 0x0490, 0x0492, 0x0494,
  0x0496, 0x0498, 0x0499, 0x049b, 0x049d, 0x049f, 0x04a1, 0x04a3, 0x04a5, 0x04a7, 0x04a9, 0x04ab, 0x04ac, 0x04ae, 0x04b0, 0x04b2,
  0x04b4, 0x04b6, 0x04b8, 0x04ba, 0x04bc, 0x04be, 0x04c0, 0x04c2, 0x04c3, 0x04c5, 0x04c7, 0x04c9, 0x04cb, 0x04cd, 0x04cf, 0x04d1,
  0x04d3, 0x04d5, 0x04d7, 0x04d9, 0x04db, 0x04dd, 0x04df, 0x04e1, 0x04e3, 0x04e5, 0x04e6, 0x04e8, 0x04ea, 0x04ec, 0x04ee, 0x04f0,
  0x04f2, 0x04f4, 0x04f6, 0x04f8, 0x04fa, 0x04fc, 0x04fe, 0x0500, 0x0502, 0x0504, 0x0506, 0x0508, 0x050a, 0x050c, 0x050e, 0x0510,
  0x0512, 0x0514, 0x0516, 0x0518, 0x051a, 0x051c, 0x051e, 0x0520, 0x0522, 0x0524, 0x0526, 0x0528, 0x052a, 0x052c, 0x052e, 0x0530,
  0x0532, 0x0534, 0x0536, 0x0538, 0x053a, 0x053c, 0x053e, 0x0540, 0x0542, 0x0544, 0x0546, 0x0549, 0x054b, 0x054d, 0x054f, 0x0551,
  0x0553, 0x0555, 0x0557, 0x0559, 0x055b, 0x055d, 0x055f, 0x0561, 0x0563, 0x0565, 0x0567, 0x0569, 0x056b
]

/-- Lookup table CCIR709tosRGB (pcdDecode.cpp): linear light to sRGB tone
curve re-encoding, index 0..1388. -/
def CCIR709tosRGB : List Nat := [
  0x0000, 0x000c, 0x0019, 0x0026, 0x0033, 0x0040, 0x004b, 0x0055, 0x005e, 0x0067, 0x006f, 0x0076, 0x007d, 0x0084, 0x008b, 0x0091,
  0x0097, 0x009d, 0x00a3, 0x00a8, 0x00ad, 0x00b3, 0x00b8, 0x00bc, 0x00c1, 0x00c6, 0x00ca, 0x00cf, 0x00d3, 0x00d7, 0x00db, 0x00e0,
  0x00e4, 0x00e7, 0x00eb, 0x00ef, 0x00f3, 0x00f7, 0x00fa, 0x00fe, 0x0101, 0x0105, 0x0108, 0x010b, 0x010f, 0x0112, 0x0115, 0x0118,
  0x011c, 0x011f, 0x0122, 0x0125, 0x0128, 0x012b, 0x012e, 0x0131, 0x0134, 0x0136, 0x0139, 0x013c, 0x013f, 0x0141, 0x0144, 0x0147,
  0x0149, 0x014c, 0x014f, 0x0151, 0x0154, 0x0156, 0x0159, 0x015b, 0x015e, 0x0160, 0x0163, 0x0165, 0x0168, 0x016a, 0x016c, 0x016f,
  0x0171, 0x0173, 0x0176, 0x0178, 0x017a, 0x017c, 0x017f, 0x0181, 0x0183, 0x0185, 0x0188, 0x018a, 0x018c, 0x018e, 0x0190, 0x0192,
  0x0194, 0x0196, 0x0198, 0x019a, 0x019d, 0x019f, 0x01a1, 0x01a3, 0x01a5, 0x01a7, 0x01a9, 0x01ab, 0x01ac, 0x01ae, 0x01b0, 0x01b2,
  0x01b4, 0x01b6, 0x01b8, 0x01ba, 0x01bc, 0x01be, 0x01bf, 0x01c1, 0x01c3, 0x01c5, 0x01c7, 0x01c9, 0x01ca, 0x01cc, 0x01ce, 0x01d0,
  0x01d2, 0x01d3, 0x01d5, 0x01d7, 0x01d9, 0x01da, 0x01dc, 0x01de, 0x01df, 0x01e1, 0x01e3, 0x01e5, 0x01e6, 0x01e8, 0x01ea, 0x01eb,
  0x01ed, 0x01ee, 0x01f0, 0x01f2, 0x01f3, 0x01f5, 0x01f7, 0x01f8, 0x01fa, 0x01fb, 0x01fd, 0x01ff, 0x0200, 0x0202, 0x0203, 0x0205,
  0x0206, 0x0208, 0x0209, 0x020b, 0x020d, 0x020e, 0x0210, 0x0211, 0x0213, 0x0214, 0x0216, 0x0217, 0x0219, 0x021a, 0x021c, 0x021d,
  0x021f, 0x0220, 0x0221, 0x0223, 0x0224, 0x0226, 0x0227, 0x0229, 0x022a, 0x022c, 0x022d, 0x022e, 0x0230, 0x0231, 0x0233, 0x0234,
  0x0235, 0x0237, 0x0238, 0x023a, 0x023b, 0x023c, 0x023e, 0x023f, 0x0240, 0x0242, 0x0243, 0x0244, 0x0246, 0x0247, 0x0248, 0x024a,
  0x024b, 0x024c, 0x024e, 0x024f, 0x0250, 0x0252, 0x0253, 0x0254, 0x0256, 0x0257, 0x0258, 0x025a, 0x025b, 0x025c, 0x025d, 0x025f,
  0x0260, 0x0261, 0x0263, 0x0264, 0x0265, 0x0266, 0x0268, 0x0269, 0x026a, 0x026b, 0x026d, 0x026e, 0x026f, 0x0270, 0x0272, 0x0273,
  0x0274, 0x0275, 0x0276, 0x0278, 0x0279, 0x027a, 0x027b, 0x027c, 0x027e, 0x027f, 0x0280, 0x0281, 0x0282, 0x0284, 0x0285, 0x0286,
  0x0287, 0x0288, 0x028a, 0x028b, 0x028c, 0x028d, 0x028e, 0x028f, 0x0291, 0x0292, 0x0293, 0x0294, 0x0295, 0x0296, 0x0297, 0x0299,
  0x029a, 0x029b, 0x029c, 0x029d, 0x029e, 0x029f, 0x02a0, 0x02a2, 0x02a3, 0x02a4, 0x02a5, 0x02a6, 0x02a7, 0x02a8, 0x02a9, 0x02aa,
  0x02ac, 0x02ad, 0x02ae, 0x02af, 0x02b0, 0x02b1, 0x02b2, 0x02b3, 0x02b4, 0x02b5, 0x02b6, 0x02b8, 0x02b9, 0x02ba, 0x02bb, 0x02bc,
  0x02bd, 0x02be, 0x02bf, 0x02c0, 0x02c1, 0x02c2, 0x02c3, 0x02c4, 0x02c5, 0x02c6, 0x02c7, 0x02c9, 0x02ca, 0x02cb, 0x02cc, 0x02cd,
  0x02ce, 0x02cf, 0x02d0, 0x02d1, 0x02d2, 0x02d3, 0x02d4, 0x02d5, 0x02d6, 0x02d7, 0x02d8, 0x02d9, 0x02da, 0x02db, 0x02dc, 0x02dd,
  0x02de, 0x02df, 0x02e0, 0x02e1, 0x02e2, 0x02e3, 0x02e4, 0x02e5, 0x02e6, 0x02e7, 0x02e8, 0x02e9, 0x02ea, 0x02eb, 0x02ec, 0x02ed,
  0x02ee, 0x02ef, 0x02f0, 0x02f1, 0x02f2, 0x02f3, 0x02f4, 0x02f5, 0x02f6, 0x02f7, 0x02f8, 0x02f9, 0x02fa, 0x02fa, 0x02fb, 0x02fc,
  0x02fd, 0x02fe, 0x02ff, 0x0300, 0x0301, 0x0302, 0x0303, 0x0304, 0x0305, 0x0306, 0x0307, 0x0308, 0x0309, 0x030a, 0x030b, 0x030b,
  0x030c, 0x030d, 0x030e, 0x030f, 0x0310, 0x0311, 0x0312, 0x0313, 0x0314, 0x0315, 0x0316, 0x0317, 0x0317, 0x0318, 0x0319, 0x031a,
  0x031b, 0x031c, 0x031d, 0x031e, 0x031f, 0x0320, 0x0321, 0x0321, 0x0322, 0x0323, 0x0324, 0x0325, 0x0326, 0x0327, 0x0328, 0x0329,
  0x032a, 0x032a, 0x032b, 0x032c, 0x032d, 0x032e, 0x032f, 0x0330, 0x0331, 0x0331, 0x0332, 0x0333, 0x0334, 0x0335, 0x0336, 0x0337,
  0x0338, 0x0338, 0x0339, 0x033a, 0x033b, 0x033c, 0x033d, 0x033e, 0x033e, 0x033f, 0x0340, 0x0341, 0x0342, 0x0343, 0x0344, 0x0344,
  0x0345, 0x0346, 0x0347, 0x0348, 0x0349, 0x034a, 0x034a, 0x034b, 0x034c, 0x034d, 0x034e, 0x034f, 0x034f, 0x0350, 0x0351, 0x0352,
  0x0353, 0x0354, 0x0354, 0x0355, 0x0356, 0x0357, 0x0358, 0x0359, 0x0359, 0x035a, 0x035b, 0x035c, 0x035d, 0x035e, 0x035e, 0x035f,
  0x0360, 0x0361, 0x0362, 0x0362, 0x0363, 0x0364, 0x0365, 0x0366, 0x0366, 0x0367, 0x0368, 0x0369, 0x036a, 0x036a, 0x036b, 0x036c,
  0x036d, 0x036e, 0x036f, 0x036f, 0x0370, 0x0371, 0x0372, 0x0372, 0x0373, 0x0374, 0x0375, 0x0376, 0x0376, 0x0377, 0x0378, 0x0379,
  0x037a, 0x037a, 0x037b, 0x037c, 0x037d, 0x037e, 0x037e, 0x037f, 0x0380, 0x0381, 0x0381, 0x0382, 0x0383, 0x0384, 0x0385, 0x0385,
  0x0386, 0x0387, 0x0388, 0x0388, 0x0389, 0x038a, 0x038b, 0x038b, 0x038c, 0x038d, 0x038e, 0x038f, 0x038f, 0x0390, 0x0391, 0x0392,
  0x0392, 0x0393, 0x0394, 0x0395, 0x0395, 0x0396, 0x0397, 0x0398, 0x0398, 0x0399, 0x039a, 0x039b, 0x039b, 0x039c, 0x039d, 0x039e,
  0x039e, 0x039f, 0x03a0, 0x03a1, 0x03a1, 0x03a2, 0x03a3, 0x03a4, 0x03a4, 0x03a5, 0x03a6, 0x03a7, 0x03a7, 0x03a8, 0x03a9, 0x03a9,
  0x03aa, 0x03ab, 0x03ac, 0x03ac, 0x03ad, 0x03ae, 0x03af, 0x03af, 0x03b0, 0x03b1, 0x03b2, 0x03b2, 0x03b3, 0x03b4, 0x03b4, 0x03b5,
  0x03b6, 0x03b7, 0x03b7, 0x03b8, 0x03b9, 0x03b9, 0x03ba, 0x03bb, 0x03bc, 0x03bc, 0x03bd, 0x03be, 0x03be, 0x03bf, 0x03c0, 0x03c1,
  0x03c1, 0x03c2, 0x03c3, 0x03c3, 0x03c4, 0x03c5, 0x03c6, 0x03c6, 0x03c7, 0x03c8, 0x03c8, 0x03c9, 0x03ca, 0x03cb, 0x03cb, 0x03cc,
  0x03cd, 0x03cd, 0x03ce, 0x03cf, 0x03cf, 0x03d0, 0x03d1, 0x03d2, 0x03d2, 0x03d3, 0x03d4, 0x03d4, 0x03d5, 0x03d6, 0x03d6, 0x03d7,
  0x03d8, 0x03d8, 0x03d9, 0x03da, 0x03db, 0x03db, 0x03dc, 0x03dd, 0x03dd, 0x03de, 0x03df, 0x03df, 0x03e0, 0x03e1, 0x03e1, 0x03e2,
  0x03e3, 0x03e3, 0x03e4, 0x03e5, 0x03e5, 0x03e6, 0x03e7, 0x03e7, 0x03e8, 0x03e9, 0x03ea, 0x03ea, 0x03eb, 0x03ec, 0x03ec, 0x03ed,
  0x03ee, 0x03ee, 0x03ef, 0x03f0, 0x03f0, 0x03f1, 0x03f2, 0x03f2, 0x03f3, 0x03f4, 0x03f4, 0x03f5, 0x03f6, 0x03f6, 0x03f7, 0x03f8,
  0x03f8, 0x03f9, 0x03fa, 0x03fa, 0x03fb, 0x03fc, 0x03fc, 0x03fd, 0x03fd, 0x03fe, 0x03ff, 0x03ff, 0x0400, 0x0401, 0x0401, 0x0402,
  0x0403, 0x0403, 0x0404, 0x0405, 0x0405, 0x0406, 0x0407, 0x0407, 0x0408, 0x0409, 0x0409, 0x040a, 0x040b, 0x040b, 0x040c, 0x040c,
  0x040d, 0x040e, 0x040e, 0x040f, 0x0410, 0x0410, 0x0411, 0x0412, 0x0412, 0x0413, 0x0414, 0x0414, 0x0415, 0x0415, 0x0416, 0x0417,
  0x0417, 0x0418, 0x0419, 0x0419, 0x041a, 0x041b, 0x041b, 0x041c, 0x041c, 0x041d, 0x041e, 0x041e, 0x041f, 0x0420, 0x0420, 0x0421,
  0x0421, 0x0422, 0x0423, 0x0423, 0x0424, 0x0425, 0x0425, 0x0426, 0x0426, 0x0427, 0x0428, 0x0428, 0x0429, 0x042a, 0x042a, 0x042b,
  0x042b, 0x042c, 0x042d, 0x042d, 0x042e, 0x042f, 0x042f, 0x0430, 0x0430, 0x0431, 0x0432, 0x0432, 0x0433, 0x0434, 0x0434, 0x0435,
  0x0435, 0x0436, 0x0437, 0x0437, 0x0438, 0x0438, 0x0439, 0x043a, 0x043a, 0x043b, 0x043b, 0x043c, 0x043d, 0x043d, 0x043e, 0x043f,
  0x043f, 0x0440, 0x0440, 0x0441, 0x0442, 0x0442, 0x0443, 0x0443, 0x0444, 0x0445, 0x0445, 0x0446, 0x0446, 0x0447, 0x0448, 0x0448,
  0x0449, 0x0449, 0x044a, 0x044b, 0x044b, 0x044c, 0x044c, 0x044d, 0x044e, 0x044e, 0x044f, 0x044f, 0x0450, 0x0451, 0x0451, 0x0452,
  0x0452, 0x0453, 0x0453, 0x0454, 0x0455, 0x0455, 0x0456, 0x0456, 0x0457, 0x0458, 0x0458, 0x0459, 0x0459, 0x045a, 0x045b, 0x045b,
  0x045c, 0x045c, 0x045d, 0x045d, 0x045e, 0x045f, 0x045f, 0x0460, 0x0460, 0x0461, 0x0462, 0x0462, 0x0463, 0x0463, 0x0464, 0x0464,
  0x0465, 0x0466, 0x0466, 0x0467, 0x0467, 0x0468, 0x0469, 0x0469, 0x046a, 0x046a, 0x046b, 0x046b, 0x046c, 0x046d, 0x046d, 0x046e,
  0x046e, 0x046f, 0x046f, 0x0470, 0x0471, 0x0471, 0x0472, 0x0472, 0x0473, 0x0473, 0x0474, 0x0475, 0x0475, 0x0476, 0x0476, 0x0477,
  0x0477, 0x0478, 0x0479, 0x0479, 0x047a, 0x047a, 0x047b, 0x047b, 0x047c, 0x047c, 0x047d, 0x047e, 0x047e, 0x047f, 0x047f, 0x0480,
  0x0480, 0x0481, 0x0482, 0x0482, 0x0483, 0x0483, 0x0484, 0x0484, 0x0485, 0x0485, 0x0486, 0x0487, 0x0487, 0x0488, 0x0488, 0x0489,
  0x0489, 0x048a, 0x048a, 0x048b, 0x048c, 0x048c, 0x048d, 0x048d, 0x048e, 0x048e, 0x048f, 0x048f, 0x0490, 0x0491, 0x0491, 0x0492,
  0x0492, 0x0493, 0x0493, 0x0494, 0x0494, 0x0495, 0x0496, 0x0496, 0x0497, 0x0497, 0x0498, 0x0498, 0x0499, 0x0499, 0x049a, 0x049a,
  0x049b, 0x049c, 0x049c, 0x049d, 0x049d, 0x049e, 0x049e, 0x049f, 0x049f, 0x04a0, 0x04a0, 0x04a1, 0x04a1, 0x04a2, 0x04a3, 0x04a3,
  0x04a4, 0x04a4, 0x04a5, 0x04a5, 0x04a6, 0x04a6, 0x04a7, 0x04a7, 0x04a8, 0x04a9, 0x04a9, 0x04aa, 0x04aa, 0x04ab, 0x04ab, 0x04ac,
  0x04ac, 0x04ad, 0x04ad, 0x04ae, 0x04ae, 0x04af, 0x04af, 0x04b0, 0x04b1, 0x04b1, 0x04b2, 0x04b2, 0x04b3, 0x04b3, 0x04b4, 0x04b4,
  0x04b5, 0x04b5, 0x04b6, 0x04b6, 0x04b7, 0x04b7, 0x04b8, 0x04b8, 0x04b9, 0x04ba, 0x04ba, 0x04bb, 0x04bb, 0x04bc, 0x04bc, 0x04bd,
  0x04bd, 0x04be, 0x04be, 0x04bf, 0x04bf, 0x04c0, 0x04c0, 0x04c1, 0x04c1, 0x04c2, 0x04c2, 0x04c3, 0x04c3, 0x04c4, 0x04c5, 0x04c5,
  0x04c6, 0x04c6, 0x04c7, 0x04c7, 0x04c8, 0x04c8, 0x04c9, 0x04c9, 0x04ca, 0x04ca, 0x04cb, 0x04cb, 0x04cc, 0x04cc, 0x04cd, 0x04cd,
  0x04ce, 0x04ce, 0x04cf, 0x04cf, 0x04d0, 0x04d0, 0x04d1, 0x04d1, 0x04d2, 0x04d2, 0x04d3, 0x04d4, 0x04d4, 0x04d5, 0x04d5, 0x04d6,
  0x04d6, 0x04d7, 0x04d7, 0x04d8, 0x04d8, 0x04d9, 0x04d9, 0x04da, 0x04da, 0x04db, 0x04db, 0x04dc, 0x04dc, 0x04dd, 0x04dd, 0x04de,
  0x04de, 0x04df, 0x04df, 0x04e0, 0x04e0, 0x04e1, 0x04e1, 0x04e2, 0x04e2, 0x04e3, 0x04e3, 0x04e4, 0x04e4, 0x04e5, 0x04e5, 0x04e6,
  0x04e6, 0x04e7, 0x04e7, 0x04e8, 0x04e8, 0x04e9, 0x04e9, 0x04ea, 0x04ea, 0x04eb, 0x04eb, 0x04ec, 0x04ec, 0x04ed, 0x04ed, 0x04ee,
  0x04ee, 0x04ef, 0x04ef, 0x04f0, 0x04f0, 0x04f1, 0x04f1, 0x04f2, 0x04f2, 0x04f3, 0x04f3, 0x04f4, 0x04f4, 0x04f5, 0x04f5, 0x04f6,
  0x04f6, 0x04f7, 0x04f7, 0x04f8, 0x04f8, 0x04f9, 0x04f9, 0x04fa, 0x04fa, 0x04fb, 0x04fb, 0x04fc, 0x04fc, 0x04fd, 0x04fd, 0x04fe,
  0x04fe, 0x04ff, 0x04ff, 0x0500, 0x0500, 0x0501, 0x0501, 0x0502, 0x0502, 0x0502, 0x0503, 0x0503, 0x0504, 0x0504, 0x0505, 0x0505,
  0x0506, 0x0506, 0x0507, 0x0507, 0x0508, 0x0508, 0x0509, 0x0509, 0x050a, 0x050a, 0x050b, 0x050b, 0x050c, 0x050c, 0x050d, 0x050d,
  0x050e, 0x050e, 0x050f, 0x050f, 0x0510, 0x0510, 0x0511, 0x0511, 0x0512, 0x0512, 0x0512, 0x0513, 0x0513, 0x0514, 0x0514, 0x0515,
  0x0515, 0x0516, 0x0516, 0x0517, 0x0517, 0x0518, 0x0518, 0x0519, 0x0519, 0x051a, 0x051a, 0x051b, 0x051b, 0x051c, 0x051c, 0x051c,
  0x051d, 0x051d, 0x051e, 0x051e, 0x051f, 0x051f, 0x0520, 0x0520, 0x0521, 0x0521, 0x0522, 0x0522, 0x0523, 0x0523, 0x0524, 0x0524,
  0x0525, 0x0525, 0x0525, 0x0526, 0x0526, 0x0527, 0x0527, 0x0528, 0x0528, 0x0529, 0x0529, 0x052a, 0x052a, 0x052b, 0x052b, 0x052c,
  0x052c, 0x052d, 0x052d, 0x052d, 0x052e, 0x052e, 0x052f, 0x052f, 0x0530, 0x0530, 0x0531, 0x0531, 0x0532, 0x0532, 0x0533, 0x0533,
  0x0534, 0x0534, 0x0534, 0x0535, 0x0535, 0x0536, 0x0536, 0x0537, 0x0537, 0x0538, 0x0538, 0x0539, 0x0539, 0x053a, 0x053a, 0x053a,
  0x053b, 0x053b, 0x053c, 0x053c, 0x053d, 0x053d, 0x053e, 0x053e, 0x053f, 0x053f, 0x053f, 0x0540, 0x0540, 0x0541, 0x0541, 0x0542,
  0x0542, 0x0543, 0x0543, 0x0544, 0x0544, 0x0545, 0x0545, 0x0545, 0x0546, 0x0546, 0x0547, 0x0547, 0x0548, 0x0548, 0x0549, 0x0549,
  0x054a, 0x054a, 0x054a, 0x054b, 0x054b, 0x054c, 0x054c, 0x054d, 0x054d, 0x054e, 0x054e, 0x054f, 0x054f, 0x054f, 0x0550, 0x0550,
  0x0551, 0x0551, 0x0552, 0x0552, 0x0553, 0x0553, 0x0553, 0x0554, 0x0554, 0x0555, 0x0555, 0x0556, 0x0556, 0x0557, 0x0557, 0x0558,
  0x0558, 0x0558, 0x0559, 0x0559, 0x055a, 0x055a, 0x055b, 0x055b, 0x055c, 0x055c, 0x055c, 0x055d, 0x055d, 0x055e, 0x055e, 0x055f,
  0x055f, 0x0560, 0x0560, 0x0560, 0x0561, 0x0561, 0x0562, 0x0562, 0x0563, 0x0563, 0x0564, 0x0564, 0x0564, 0x0565, 0x0565, 0x0566,
  0x0566, 0x0567, 0x0567, 0x0568, 0x0568, 0x0568, 0x0569, 0x0569, 0x056a, 0x056a, 0x056b, 0x056b, 0x056b
]

/-- Lookup table uint8Output (pcdDecode.cpp): final index 0..1388 to 8-bit
output value. -/
def uint8Output : List Nat := [
  0x00, 0x00, 0x00, 0x00, 0x00, 0x00, 0x01, 0x01, 0x01, 0x01, 0x01, 0x02, 0x02, 0x02, 0x02, 0x02,
  0x02, 0x03, 0x03, 0x03, 0x03, 0x03, 0x04, 0x04, 0x04, 0x04, 0x04, 0x04, 0x05, 0x05, 0x05, 0x05,
  0x05, 0x06, 0x06, 0x06, 0x06, 0x06, 0x06, 0x07, 0x07, 0x07, 0x07, 0x07, 0x08, 0x08, 0x08, 0x08,
  0x08, 0x09, 0x09, 0x09, 0x09, 0x09, 0x09, 0x0a, 0x0a, 0x0a, 0x0a, 0x0a, 0x0b, 0x0b, 0x0b, 0x0b,
  0x0b, 0x0b, 0x0c, 0x0c, 0x0c, 0x0c, 0x0c, 0x0d, 0x0d, 0x0d, 0x0d, 0x0d, 0x0d, 0x0e, 0x0e, 0x0e,
  0x0e, 0x0e, 0x0f, 0x0f, 0x0f, 0x0f, 0x0f, 0x0f, 0x10, 0x10, 0x10, 0x10, 0x10, 0x11, 0x11, 0x11,
  0x11, 0x11, 0x12, 0x12, 0x12, 0x12, 0x12, 0x12, 0x13, 0x13, 0x13, 0x13, 0x13, 0x14, 0x14, 0x14,
  0x14, 0x14, 0x14, 0x15, 0x15, 0x15, 0x15, 0x15, 0x16, 0x16, 0x16, 0x16, 0x16, 0x16, 0x17, 0x17,
  0x17, 0x17, 0x17, 0x18, 0x18, 0x18, 0x18, 0x18, 0x18, 0x19, 0x19, 0x19, 0x19, 0x19, 0x1a, 0x1a,
  0x1a, 0x1a, 0x1a, 0x1b, 0x1b, 0x1b, 0x1b, 0x1b, 0x1b, 0x1c, 0x1c, 0x1c, 0x1c, 0x1c, 0x1d, 0x1d,
  0x1d, 0x1d, 0x1d, 0x1d, 0x1e, 0x1e, 0x1e, 0x1e, 0x1e, 0x1f, 0x1f, 0x1f, 0x1f, 0x1f, 0x1f, 0x20,
  0x20, 0x20, 0x20, 0x20, 0x21, 0x21, 0x21, 0x21, 0x21, 0x21, 0x22, 0x22, 0x22, 0x22, 0x22, 0x23,
  0x23, 0x23, 0x23, 0x23, 0x24, 0x24, 0x24, 0x24, 0x24, 0x24, 0x25, 0x25, 0x25, 0x25, 0x25, 0x26,
  0x26, 0x26, 0x26, 0x26, 0x26, 0x27, 0x27, 0x27, 0x27, 0x27, 0x28, 0x28, 0x28, 0x28, 0x28, 0x28,
  0x29, 0x29, 0x29, 0x29, 0x29, 0x2a, 0x2a, 0x2a, 0x2a, 0x2a, 0x2a, 0x2b, 0x2b, 0x2b, 0x2b, 0x2b,
  0x2c, 0x2c, 0x2c, 0x2c, 0x2c, 0x2d, 0x2d, 0x2d, 0x2d, 0x2d, 0x2d, 0x2e, 0x2e, 0x2e, 0x2e, 0x2e,
  0x2f, 0x2f, 0x2f, 0x2f, 0x2f, 0x2f, 0x30, 0x30, 0x30, 0x30, 0x30, 0x31, 0x31, 0x31, 0x31, 0x31,
  0x31, 0x32, 0x32, 0x32, 0x32, 0x32, 0x33, 0x33, 0x33, 0x33, 0x33, 0x33, 0x34, 0x34, 0x34, 0x34,
  0x34, 0x35, 0x35, 0x35, 0x35, 0x35, 0x36, 0x36, 0x36, 0x36, 0x36, 0x36, 0x37, 0x37, 0x37, 0x37,
  0x37, 0x38, 0x38, 0x38, 0x38, 0x38, 0x38, 0x39, 0x39, 0x39, 0x39, 0x39, 0x3a, 0x3a, 0x3a, 0x3a,
  0x3a, 0x3a, 0x3b, 0x3b, 0x3b, 0x3b, 0x3b, 0x3c, 0x3c, 0x3c, 0x3c, 0x3c, 0x3c, 0x3d, 0x3d, 0x3d,
  0x3d, 0x3d, 0x3e, 0x3e, 0x3e, 0x3e, 0x3e, 0x3f, 0x3f, 0x3f, 0x3f, 0x3f, 0x3f, 0x40, 0x40, 0x40,
  0x40, 0x40, 0x41, 0x41, 0x41, 0x41, 0x41, 0x41, 0x42, 0x42, 0x42, 0x42, 0x42, 0x43, 0x43, 0x43,
  0x43, 0x43, 0x43, 0x44, 0x44, 0x44, 0x44, 0x44, 0x45, 0x45, 0x45, 0x45, 0x45, 0x45, 0x46, 0x46,
  0x46, 0x46, 0x46, 0x47, 0x47, 0x47, 0x47, 0x47, 0x48, 0x48, 0x48, 0x48, 0x48, 0x48, 0x49, 0x49,
  0x49, 0x49, 0x49, 0x4a, 0x4a, 0x4a, 0x4a, 0x4a, 0x4a, 0x4b, 0x4b, 0x4b, 0x4b, 0x4b, 0x4c, 0x4c,
  0x4c, 0x4c, 0x4c, 0x4c, 0x4d, 0x4d, 0x4d, 0x4d, 0x4d, 0x4e, 0x4e, 0x4e, 0x4e, 0x4e, 0x4e, 0x4f,
  0x4f, 0x4f, 0x4f, 0x4f, 0x50, 0x50, 0x50, 0x50, 0x50, 0x51, 0x51, 0x51, 0x51, 0x51, 0x51, 0x52,
  0x52, 0x52, 0x52, 0x52, 0x53, 0x53, 0x53, 0x53, 0x53, 0x53, 0x54, 0x54, 0x54, 0x54, 0x54, 0x55,
  0x55, 0x55, 0x55, 0x55, 0x55, 0x56, 0x56, 0x56, 0x56, 0x56, 0x57, 0x57, 0x57, 0x57, 0x57, 0x58,
  0x58, 0x58, 0x58, 0x58, 0x58, 0x59, 0x59, 0x59, 0x59, 0x59, 0x5a, 0x5a, 0x5a, 0x5a, 0x5a, 0x5a,
  0x5b, 0x5b, 0x5b, 0x5b, 0x5b, 0x5c, 0x5c, 0x5c, 0x5c, 0x5c, 0x5c, 0x5d, 0x5d, 0x5d, 0x5d, 0x5d,
  0x5e, 0x5e, 0x5e, 0x5e, 0x5e, 0x5e, 0x5f, 0x5f, 0x5f, 0x5f, 0x5f, 0x60, 0x60, 0x60, 0x60, 0x60,
  0x61, 0x61, 0x61, 0x61, 0x61, 0x61, 0x62, 0x62, 0x62, 0x62, 0x62, 0x63, 0x63, 0x63, 0x63, 0x63,
  0x63, 0x64, 0x64, 0x64, 0x64, 0x64, 0x65, 0x65, 0x65, 0x65, 0x65, 0x65, 0x66, 0x66, 0x66, 0x66,
  0x66, 0x67, 0x67, 0x67, 0x67, 0x67, 0x67, 0x68, 0x68, 0x68, 0x68, 0x68, 0x69, 0x69, 0x69, 0x69,
  0x69, 0x6a, 0x6a, 0x6a, 0x6a, 0x6a, 0x6a, 0x6b, 0x6b, 0x6b, 0x6b, 0x6b, 0x6c, 0x6c, 0x6c, 0x6c,
  0x6c, 0x6c, 0x6d, 0x6d, 0x6d, 0x6d, 0x6d, 0x6e, 0x6e, 0x6e, 0x6e, 0x6e, 0x6e, 0x6f, 0x6f, 0x6f,
  0x6f, 0x6f, 0x70, 0x70, 0x70, 0x70, 0x70, 0x70, 0x71, 0x71, 0x71, 0x71, 0x71, 0x72, 0x72, 0x72,
  0x72, 0x72, 0x73, 0x73, 0x73, 0x73, 0x73, 0x73, 0x74, 0x74, 0x74, 0x74, 0x74, 0x75, 0x75, 0x75,
  0x75, 0x75, 0x75, 0x76, 0x76, 0x76, 0x76, 0x76, 0x77, 0x77, 0x77, 0x77, 0x77, 0x77, 0x78, 0x78,
  0x78, 0x78, 0x78, 0x79, 0x79, 0x79, 0x79, 0x79, 0x79, 0x7a, 0x7a, 0x7a, 0x7a, 0x7a, 0x7b, 0x7b,
  0x7b, 0x7b, 0x7b, 0x7c, 0x7c, 0x7c, 0x7c, 0x7c, 0x7c, 0x7d, 0x7d, 0x7d, 0x7d, 0x7d, 0x7e, 0x7e,
  0x7e, 0x7e, 0x7e, 0x7e, 0x7f, 0x7f, 0x7f, 0x7f, 0x7f, 0x80, 0x80, 0x80, 0x80, 0x80, 0x80, 0x81,
  0x81, 0x81, 0x81, 0x81, 0x82, 0x82, 0x82, 0x82, 0x82, 0x82, 0x83, 0x83, 0x83, 0x83, 0x83, 0x84,
  0x84, 0x84, 0x84, 0x84, 0x85, 0x85, 0x85, 0x85, 0x85, 0x85, 0x86, 0x86, 0x86, 0x86, 0x86, 0x87,
  0x87, 0x87, 0x87, 0x87, 0x87, 0x88, 0x88, 0x88, 0x88, 0x88, 0x89, 0x89, 0x89, 0x89, 0x89, 0x89,
  0x8a, 0x8a, 0x8a, 0x8a, 0x8a, 0x8b, 0x8b, 0x8b, 0x8b, 0x8b, 0x8b, 0x8c, 0x8c, 0x8c, 0x8c, 0x8c,
  0x8d, 0x8d, 0x8d, 0x8d, 0x8d, 0x8e, 0x8e, 0x8e, 0x8e, 0x8e, 0x8e, 0x8f, 0x8f, 0x8f, 0x8f, 0x8f,
  0x90, 0x90, 0x90, 0x90, 0x90, 0x90, 0x91, 0x91, 0x91, 0x91, 0x91, 0x92, 0x92, 0x92, 0x92, 0x92,
  0x92, 0x93, 0x93, 0x93, 0x93, 0x93, 0x94, 0x94, 0x94, 0x94, 0x94, 0x94, 0x95, 0x95, 0x95, 0x95,
  0x95, 0x96, 0x96, 0x96, 0x96, 0x96, 0x97, 0x97, 0x97, 0x97, 0x97, 0x97, 0x98, 0x98, 0x98, 0x98,
  0x98, 0x99, 0x99, 0x99, 0x99, 0x99, 0x99, 0x9a, 0x9a, 0x9a, 0x9a, 0x9a, 0x9b, 0x9b, 0x9b, 0x9b,
  0x9b, 0x9b, 0x9c, 0x9c, 0x9c, 0x9c, 0x9c, 0x9d, 0x9d, 0x9d, 0x9d, 0x9d, 0x9d, 0x9e, 0x9e, 0x9e,
  0x9e, 0x9e, 0x9f, 0x9f, 0x9f, 0x9f, 0x9f, 0xa0, 0xa0, 0xa0, 0xa0, 0xa0, 0xa0, 0xa1, 0xa1, 0xa1,
  0xa1, 0xa1, 0xa2, 0xa2, 0xa2, 0xa2, 0xa2, 0xa2, 0xa3, 0xa3, 0xa3, 0xa3, 0xa3, 0xa4, 0xa4, 0xa4,
  0xa4, 0xa4, 0xa4, 0xa5, 0xa5, 0xa5, 0xa5, 0xa5, 0xa6, 0xa6, 0xa6, 0xa6, 0xa6, 0xa6, 0xa7, 0xa7,
  0xa7, 0xa7, 0xa7, 0xa8, 0xa8, 0xa8, 0xa8, 0xa8, 0xa9, 0xa9, 0xa9, 0xa9, 0xa9, 0xa9, 0xaa, 0xaa,
  0xaa, 0xaa, 0xaa, 0xab, 0xab, 0xab, 0xab, 0xab, 0xab, 0xac, 0xac, 0xac, 0xac, 0xac, 0xad, 0xad,
  0xad, 0xad, 0xad, 0xad, 0xae, 0xae, 0xae, 0xae, 0xae, 0xaf, 0xaf, 0xaf, 0xaf, 0xaf, 0xb0, 0xb0,
  0xb0, 0xb0, 0xb0, 0xb0, 0xb1, 0xb1, 0xb1, 0xb1, 0xb1, 0xb2, 0xb2, 0xb2, 0xb2, 0xb2, 0xb2, 0xb3,
  0xb3, 0xb3, 0xb3, 0xb3, 0xb4, 0xb4, 0xb4, 0xb4, 0xb4, 0xb4, 0xb5, 0xb5, 0xb5, 0xb5, 0xb5, 0xb6,
  0xb6, 0xb6, 0xb6, 0xb6, 0xb6, 0xb7, 0xb7, 0xb7, 0xb7, 0xb7, 0xb8, 0xb8, 0xb8, 0xb8, 0xb8, 0xb9,
  0xb9, 0xb9, 0xb9, 0xb9, 0xb9, 0xba, 0xba, 0xba, 0xba, 0xba, 0xbb, 0xbb, 0xbb, 0xbb, 0xbb, 0xbb,
  0xbc, 0xbc, 0xbc, 0xbc, 0xbc, 0xbd, 0xbd, 0xbd, 0xbd, 0xbd, 0xbd, 0xbe, 0xbe, 0xbe, 0xbe, 0xbe,
  0xbf, 0xbf, 0xbf, 0xbf, 0xbf, 0xbf, 0xc0, 0xc0, 0xc0, 0xc0, 0xc0, 0xc1, 0xc1, 0xc1, 0xc1, 0xc1,
  0xc2, 0xc2, 0xc2, 0xc2, 0xc2, 0xc2, 0xc3, 0xc3, 0xc3, 0xc3, 0xc3, 0xc4, 0xc4, 0xc4, 0xc4, 0xc4,
  0xc4, 0xc5, 0xc5, 0xc5, 0xc5, 0xc5, 0xc6, 0xc6, 0xc6, 0xc6, 0xc6, 0xc6, 0xc7, 0xc7, 0xc7, 0xc7,
  0xc7, 0xc8, 0xc8, 0xc8, 0xc8, 0xc8, 0xc8, 0xc9, 0xc9, 0xc9, 0xc9, 0xc9, 0xca, 0xca, 0xca, 0xca,
  0xca, 0xcb, 0xcb, 0xcb, 0xcb, 0xcb, 0xcb, 0xcc, 0xcc, 0xcc, 0xcc, 0xcc, 0xcd, 0xcd, 0xcd, 0xcd,
  0xcd, 0xcd, 0xce, 0xce, 0xce, 0xce, 0xce, 0xcf, 0xcf, 0xcf, 0xcf, 0xcf, 0xcf, 0xd0, 0xd0, 0xd0,
  0xd0, 0xd0, 0xd1, 0xd1, 0xd1, 0xd1, 0xd1, 0xd1, 0xd2, 0xd2, 0xd2, 0xd2, 0xd2, 0xd3, 0xd3, 0xd3,
  0xd3, 0xd3, 0xd4, 0xd4, 0xd4, 0xd4, 0xd4, 0xd4, 0xd5, 0xd5, 0xd5, 0xd5, 0xd5, 0xd6, 0xd6, 0xd6,
  0xd6, 0xd6, 0xd6, 0xd7, 0xd7, 0xd7, 0xd7, 0xd7, 0xd8, 0xd8, 0xd8, 0xd8, 0xd8, 0xd8, 0xd9, 0xd9,
  0xd9, 0xd9, 0xd9, 0xda, 0xda, 0xda, 0xda, 0xda, 0xda, 0xdb, 0xdb, 0xdb, 0xdb, 0xdb, 0xdc, 0xdc,
  0xdc, 0xdc, 0xdc, 0xdd, 0xdd, 0xdd, 0xdd, 0xdd, 0xdd, 0xde, 0xde, 0xde, 0xde, 0xde, 0xdf, 0xdf,
  0xdf, 0xdf, 0xdf, 0xdf, 0xe0, 0xe0, 0xe0, 0xe0, 0xe0, 0xe1, 0xe1, 0xe1, 0xe1, 0xe1, 0xe1, 0xe2,
  0xe2, 0xe2, 0xe2, 0xe2, 0xe3, 0xe3, 0xe3, 0xe3, 0xe3, 0xe3, 0xe4, 0xe4, 0xe4, 0xe4, 0xe4, 0xe5,
  0xe5, 0xe5, 0xe5, 0xe5, 0xe6, 0xe6, 0xe6, 0xe6, 0xe6, 0xe6, 0xe7, 0xe7, 0xe7, 0xe7, 0xe7, 0xe8,
  0xe8, 0xe8, 0xe8, 0xe8, 0xe8, 0xe9, 0xe9, 0xe9, 0xe9, 0xe9, 0xea, 0xea, 0xea, 0xea, 0xea, 0xea,
  0xeb, 0xeb, 0xeb, 0xeb, 0xeb, 0xec, 0xec, 0xec, 0xec, 0xec, 0xec, 0xed, 0xed, 0xed, 0xed, 0xed,
  0xee, 0xee, 0xee, 0xee, 0xee, 0xef, 0xef, 0xef, 0xef, 0xef, 0xef, 0xf0, 0xf0, 0xf0, 0xf0, 0xf0,
  0xf1, 0xf1, 0xf1, 0xf1, 0xf1, 0xf1, 0xf2, 0xf2, 0xf2, 0xf2, 0xf2, 0xf3, 0xf3, 0xf3, 0xf3, 0xf3,
  0xf3, 0xf4, 0xf4, 0xf4, 0xf4, 0xf4, 0xf5, 0xf5, 0xf5, 0xf5, 0xf5, 0xf5, 0xf6, 0xf6, 0xf6, 0xf6,
  0xf6, 0xf7, 0xf7, 0xf7, 0xf7, 0xf7, 0xf8, 0xf8, 0xf8, 0xf8, 0xf8, 0xf8, 0xf9, 0xf9, 0xf9, 0xf9,
  0xf9, 0xfa, 0xfa, 0xfa, 0xfa, 0xfa, 0xfa, 0xfb, 0xfb, 0xfb, 0xfb, 0xfb, 0xfc, 0xfc, 0xfc, 0xfc,
  0xfc, 0xfc, 0xfd, 0xfd, 0xfd, 0xfd, 0xfd, 0xfe, 0xfe, 0xfe, 0xfe, 0xfe, 0xff
]

/-- Lookup table uint16Output (pcdDecode.cpp): final index 0..1388 to 16-bit
output value. -/
def uint16Output : List Nat := [
  0x0000, 0x002f, 0x005e, 0x008d, 0x00bc, 0x00ec, 0x011b, 0x014a, 0x0179, 0x01a8, 0x01d8, 0x0207, 0x0236, 0x0265, 0x0295, 0x02c4,
  0x02f3, 0x0322, 0x0351, 0x0381, 0x03b0, 0x03df, 0x040e, 0x043d, 0x046d, 0x049c, 0x04cb, 0x04fa, 0x052a, 0x0559, 0x0588, 0x05b7,
  0x05e6, 0x0616, 0x0645, 0x0674, 0x06a3, 0x06d2, 0x0702, 0x0731, 0x0760, 0x078f, 0x07bf, 0x07ee, 0x081d, 0x084c, 0x087b, 0x08ab,
  0x08da, 0x0909, 0x0938, 0x0967, 0x0997, 0x09c6, 0x09f5, 0x0a24, 0x0a54, 0x0a83, 0x0ab2, 0x0ae1, 0x0b10, 0x0b40, 0x0b6f, 0x0b9e,
  0x0bcd, 0x0bfd, 0x0c2c, 0x0c5b, 0x0c8a, 0x0cb9, 0x0ce9, 0x0d18, 0x0d47, 0x0d76, 0x0da5, 0x0dd5, 0x0e04, 0x0e33, 0x0e62, 0x0e92,
  0x0ec1, 0x0ef0, 0x0f1f, 0x0f4e, 0x0f7e, 0x0fad, 0x0fdc, 0x100b, 0x103a, 0x106a, 0x1099, 0x10c8, 0x10f7, 0x1127, 0x1156, 0x1185,
  0x11b4, 0x11e3, 0x1213, 0x1242, 0x1271, 0x12a0, 0x12cf, 0x12ff, 0x132e, 0x135d, 0x138c, 0x13bc, 0x13eb, 0x141a, 0x1449, 0x1478,
  0x14a8, 0x14d7, 0x1506, 0x1535, 0x1564, 0x1594, 0x15c3, 0x15f2, 0x1621, 0x1651, 0x1680, 0x16af, 0x16de, 0x170d, 0x173d, 0x176c,
  0x179b, 0x17ca, 0x17fa, 0x1829, 0x1858, 0x1887, 0x18b6, 0x18e6, 0x1915, 0x1944, 0x1973, 0x19a2, 0x19d2, 0x1a01, 0x1a30, 0x1a5f,
  0x1a8f, 0x1abe, 0x1aed, 0x1b1c, 0x1b4b, 0x1b7b, 0x1baa, 0x1bd9, 0x1c08, 0x1c37, 0x1c67, 0x1c96, 0x1cc5, 0x1cf4, 0x1d24, 0x1d53,
  0x1d82, 0x1db1, 0x1de0, 0x1e10, 0x1e3f, 0x1e6e, 0x1e9d, 0x1ecc, 0x1efc, 0x1f2b, 0x1f5a, 0x1f89, 0x1fb9, 0x1fe8, 0x2017, 0x2046,
  0x2075, 0x20a5, 0x20d4, 0x2103, 0x2132, 0x2161, 0x2191, 0x21c0, 0x21ef, 0x221e, 0x224e, 0x227d, 0x22ac, 0x22db, 0x230a, 0x233a,
  0x2369, 0x2398, 0x23c7, 0x23f7, 0x2426, 0x2455, 0x2484, 0x24b3, 0x24e3, 0x2512, 0x2541, 0x2570, 0x259f, 0x25cf, 0x25fe, 0x262d,
  0x265c, 0x268c, 0x26bb, 0x26ea, 0x2719, 0x2748, 0x2778, 0x27a7, 0x27d6, 0x2805, 0x2834, 0x2864, 0x2893, 0x28c2, 0x28f1, 0x2921,
  0x2950, 0x297f, 0x29ae, 0x29dd, 0x2a0d, 0x2a3c, 0x2a6b, 0x2a9a, 0x2ac9, 0x2af9, 0x2b28, 0x2b57, 0x2b86, 0x2bb6, 0x2be5, 0x2c14,
  0x2c43, 0x2c72, 0x2ca2, 0x2cd1, 0x2d00, 0x2d2f, 0x2d5e, 0x2d8e, 0x2dbd, 0x2dec, 0x2e1b, 0x2e4b, 0x2e7a, 0x2ea9, 0x2ed8, 0x2f07,
  0x2f37, 0x2f66, 0x2f95, 0x2fc4, 0x2ff4, 0x3023, 0x3052, 0x3081, 0x30b0, 0x30e0, 0x310f, 0x313e, 0x316d, 0x319c, 0x31cc, 0x31fb,
  0x322a, 0x3259, 0x3289, 0x32b8, 0x32e7, 0x3316, 0x3345, 0x3375, 0x33a4, 0x33d3, 0x3402, 0x3431, 0x3461, 0x3490, 0x34bf, 0x34ee,
  0x351e, 0x354d, 0x357c, 0x35ab, 0x35da, 0x360a, 0x3639, 0x3668, 0x3697, 0x36c6, 0x36f6, 0x3725, 0x3754, 0x3783, 0x37b3, 0x37e2,
  0x3811, 0x3840, 0x386f, 0x389f, 0x38ce, 0x38fd, 0x392c, 0x395b, 0x398b, 0x39ba, 0x39e9, 0x3a18, 0x3a48, 0x3a77, 0x3aa6, 0x3ad5,
  0x3b04, 0x3b34, 0x3b63, 0x3b92, 0x3bc1, 0x3bf1, 0x3c20, 0x3c4f, 0x3c7e, 0x3cad, 0x3cdd, 0x3d0c, 0x3d3b, 0x3d6a, 0x3d99, 0x3dc9,
  0x3df8, 0x3e27, 0x3e56, 0x3e86, 0x3eb5, 0x3ee4, 0x3f13, 0x3f42, 0x3f72, 0x3fa1, 0x3fd0, 0x3fff, 0x402e, 0x405e, 0x408d, 0x40bc,
  0x40eb, 0x411b, 0x414a, 0x4179, 0x41a8, 0x41d7, 0x4207, 0x4236, 0x4265, 0x4294, 0x42c3, 0x42f3, 0x4322, 0x4351, 0x4380, 0x43b0,
  0x43df, 0x440e, 0x443d, 0x446c, 0x449c, 0x44cb, 0x44fa, 0x4529, 0x4558, 0x4588, 0x45b7, 0x45e6, 0x4615, 0x4645, 0x4674, 0x46a3,
  0x46d2, 0x4701, 0x4731, 0x4760, 0x478f, 0x47be, 0x47ee, 0x481d, 0x484c, 0x487b, 0x48aa, 0x48da, 0x4909, 0x4938, 0x4967, 0x4996,
  0x49c6, 0x49f5, 0x4a24, 0x4a53, 0x4a83, 0x4ab2, 0x4ae1, 0x4b10, 0x4b3f, 0x4b6f, 0x4b9e, 0x4bcd, 0x4bfc, 0x4c2b, 0x4c5b, 0x4c8a,
  0x4cb9, 0x4ce8, 0x4d18, 0x4d47, 0x4d76, 0x4da5, 0x4dd4, 0x4e04, 0x4e33, 0x4e62, 0x4e91, 0x4ec0, 0x4ef0, 0x4f1f, 0x4f4e, 0x4f7d,
  0x4fad, 0x4fdc, 0x500b, 0x503a, 0x5069, 0x5099, 0x50c8, 0x50f7, 0x5126, 0x5155, 0x5185, 0x51b4, 0x51e3, 0x5212, 0x5242, 0x5271,
  0x52a0, 0x52cf, 0x52fe, 0x532e, 0x535d, 0x538c, 0x53bb, 0x53eb, 0x541a, 0x5449, 0x5478, 0x54a7, 0x54d7, 0x5506, 0x5535, 0x5564,
  0x5593, 0x55c3, 0x55f2, 0x5621, 0x5650, 0x5680, 0x56af, 0x56de, 0x570d, 0x573c, 0x576c, 0x579b, 0x57ca, 0x57f9, 0x5828, 0x5858,
  0x5887, 0x58b6, 0x58e5, 0x5915, 0x5944, 0x5973, 0x59a2, 0x59d1, 0x5a01, 0x5a30, 0x5a5f, 0x5a8e, 0x5abd, 0x5aed, 0x5b1c, 0x5b4b,
  0x5b7a, 0x5baa, 0x5bd9, 0x5c08, 0x5c37, 0x5c66, 0x5c96, 0x5cc5, 0x5cf4, 0x5d23, 0x5d53, 0x5d82, 0x5db1, 0x5de0, 0x5e0f, 0x5e3f,
  0x5e6e, 0x5e9d, 0x5ecc, 0x5efb, 0x5f2b, 0x5f5a, 0x5f89, 0x5fb8, 0x5fe8, 0x6017, 0x6046, 0x6075, 0x60a4, 0x60d4, 0x6103, 0x6132,
  0x6161, 0x6190, 0x61c0, 0x61ef, 0x621e, 0x624d, 0x627d, 0x62ac, 0x62db, 0x630a, 0x6339, 0x6369, 0x6398, 0x63c7, 0x63f6, 0x6425,
  0x6455, 0x6484, 0x64b3, 0x64e2, 0x6512, 0x6541, 0x6570, 0x659f, 0x65ce, 0x65fe, 0x662d, 0x665c, 0x668b, 0x66ba, 0x66ea, 0x6719,
  0x6748, 0x6777, 0x67a7, 0x67d6, 0x6805, 0x6834, 0x6863, 0x6893, 0x68c2, 0x68f1, 0x6920, 0x6950, 0x697f, 0x69ae, 0x69dd, 0x6a0c,
  0x6a3c, 0x6a6b, 0x6a9a, 0x6ac9, 0x6af8, 0x6b28, 0x6b57, 0x6b86, 0x6bb5, 0x6be5, 0x6c14, 0x6c43, 0x6c72, 0x6ca1, 0x6cd1, 0x6d00,
  0x6d2f, 0x6d5e, 0x6d8d, 0x6dbd, 0x6dec, 0x6e1b, 0x6e4a, 0x6e7a, 0x6ea9, 0x6ed8, 0x6f07, 0x6f36, 0x6f66, 0x6f95, 0x6fc4, 0x6ff3,
  0x7022, 0x7052, 0x7081, 0x70b0, 0x70df, 0x710f, 0x713e, 0x716d, 0x719c, 0x71cb, 0x71fb, 0x722a, 0x7259, 0x7288, 0x72b7, 0x72e7,
  0x7316, 0x7345, 0x7374, 0x73a4, 0x73d3, 0x7402, 0x7431, 0x7460, 0x7490, 0x74bf, 0x74ee, 0x751d, 0x754d, 0x757c, 0x75ab, 0x75da,
  0x7609, 0x7639, 0x7668, 0x7697, 0x76c6, 0x76f5, 0x7725, 0x7754, 0x7783, 0x77b2, 0x77e2, 0x7811, 0x7840, 0x786f, 0x789e, 0x78ce,
  0x78fd, 0x792c, 0x795b, 0x798a, 0x79ba, 0x79e9, 0x7a18, 0x7a47, 0x7a77, 0x7aa6, 0x7ad5, 0x7b04, 0x7b33, 0x7b63, 0x7b92, 0x7bc1,
  0x7bf0, 0x7c1f, 0x7c4f, 0x7c7e, 0x7cad, 0x7cdc, 0x7d0c, 0x7d3b, 0x7d6a, 0x7d99, 0x7dc8, 0x7df8, 0x7e27, 0x7e56, 0x7e85, 0x7eb4,
  0x7ee4, 0x7f13, 0x7f42, 0x7f71, 0x7fa1, 0x7fd0, 0x7fff, 0x802e, 0x805d, 0x808d, 0x80bc, 0x80eb, 0x811a, 0x814a, 0x8179, 0x81a8,
  0x81d7, 0x8206, 0x8236, 0x8265, 0x8294, 0x82c3, 0x82f2, 0x8322, 0x8351, 0x8380, 0x83af, 0x83df, 0x840e, 0x843d, 0x846c, 0x849b,
  0x84cb, 0x84fa, 0x8529, 0x8558, 0x8587, 0x85b7, 0x85e6, 0x8615, 0x8644, 0x8674, 0x86a3, 0x86d2, 0x8701, 0x8730, 0x8760, 0x878f,
  0x87be, 0x87ed, 0x881c, 0x884c, 0x887b, 0x88aa, 0x88d9, 0x8909, 0x8938, 0x8967, 0x8996, 0x89c5, 0x89f5, 0x8a24, 0x8a53, 0x8a82,
  0x8ab1, 0x8ae1, 0x8b10, 0x8b3f, 0x8b6e, 0x8b9e, 0x8bcd, 0x8bfc, 0x8c2b, 0x8c5a, 0x8c8a, 0x8cb9, 0x8ce8, 0x8d17, 0x8d47, 0x8d76,
  0x8da5, 0x8dd4, 0x8e03, 0x8e33, 0x8e62, 0x8e91, 0x8ec0, 0x8eef, 0x8f1f, 0x8f4e, 0x8f7d, 0x8fac, 0x8fdc, 0x900b, 0x903a, 0x9069,
  0x9098, 0x90c8, 0x90f7, 0x9126, 0x9155, 0x9184, 0x91b4, 0x91e3, 0x9212, 0x9241, 0x9271, 0x92a0, 0x92cf, 0x92fe, 0x932d, 0x935d,
  0x938c, 0x93bb, 0x93ea, 0x9419, 0x9449, 0x9478, 0x94a7, 0x94d6, 0x9506, 0x9535, 0x9564, 0x9593, 0x95c2, 0x95f2, 0x9621, 0x9650,
  0x967f, 0x96ae, 0x96de, 0x970d, 0x973c, 0x976b, 0x979b, 0x97ca, 0x97f9, 0x9828, 0x9857, 0x9887, 0x98b6, 0x98e5, 0x9914, 0x9944,
  0x9973, 0x99a2, 0x99d1, 0x9a00, 0x9a30, 0x9a5f, 0x9a8e, 0x9abd, 0x9aec, 0x9b1c, 0x9b4b, 0x9b7a, 0x9ba9, 0x9bd9, 0x9c08, 0x9c37,
  0x9c66, 0x9c95, 0x9cc5, 0x9cf4, 0x9d23, 0x9d52, 0x9d81, 0x9db1, 0x9de0, 0x9e0f, 0x9e3e, 0x9e6e, 0x9e9d, 0x9ecc, 0x9efb, 0x9f2a,
  0x9f5a, 0x9f89, 0x9fb8, 0x9fe7, 0xa016, 0xa046, 0xa075, 0xa0a4, 0xa0d3, 0xa103, 0xa132, 0xa161, 0xa190, 0xa1bf, 0xa1ef, 0xa21e,
  0xa24d, 0xa27c, 0xa2ab, 0xa2db, 0xa30a, 0xa339, 0xa368, 0xa398, 0xa3c7, 0xa3f6, 0xa425, 0xa454, 0xa484, 0xa4b3, 0xa4e2, 0xa511,
  0xa541, 0xa570, 0xa59f, 0xa5ce, 0xa5fd, 0xa62d, 0xa65c, 0xa68b, 0xa6ba, 0xa6e9, 0xa719, 0xa748, 0xa777, 0xa7a6, 0xa7d6, 0xa805,
  0xa834, 0xa863, 0xa892, 0xa8c2, 0xa8f1, 0xa920, 0xa94f, 0xa97e, 0xa9ae, 0xa9dd, 0xaa0c, 0xaa3b, 0xaa6b, 0xaa9a, 0xaac9, 0xaaf8,
  0xab27, 0xab57, 0xab86, 0xabb5, 0xabe4, 0xac13, 0xac43, 0xac72, 0xaca1, 0xacd0, 0xad00, 0xad2f, 0xad5e, 0xad8d, 0xadbc, 0xadec,
  0xae1b, 0xae4a, 0xae79, 0xaea9, 0xaed8, 0xaf07, 0xaf36, 0xaf65, 0xaf95, 0xafc4, 0xaff3, 0xb022, 0xb051, 0xb081, 0xb0b0, 0xb0df,
  0xb10e, 0xb13e, 0xb16d, 0xb19c, 0xb1cb, 0xb1fa, 0xb22a, 0xb259, 0xb288, 0xb2b7, 0xb2e6, 0xb316, 0xb345, 0xb374, 0xb3a3, 0xb3d3,
  0xb402, 0xb431, 0xb460, 0xb48f, 0xb4bf, 0xb4ee, 0xb51d, 0xb54c, 0xb57b, 0xb5ab, 0xb5da, 0xb609, 0xb638, 0xb668, 0xb697, 0xb6c6,
  0xb6f5, 0xb724, 0xb754, 0xb783, 0xb7b2, 0xb7e1, 0xb810, 0xb840, 0xb86f, 0xb89e, 0xb8cd, 0xb8fd, 0xb92c, 0xb95b, 0xb98a, 0xb9b9,
  0xb9e9, 0xba18, 0xba47, 0xba76, 0xbaa6, 0xbad5, 0xbb04, 0xbb33, 0xbb62, 0xbb92, 0xbbc1, 0xbbf0, 0xbc1f, 0xbc4e, 0xbc7e, 0xbcad,
  0xbcdc, 0xbd0b, 0xbd3b, 0xbd6a, 0xbd99, 0xbdc8, 0xbdf7, 0xbe27, 0xbe56, 0xbe85, 0xbeb4, 0xbee3, 0xbf13, 0xbf42, 0xbf71, 0xbfa0,
  0xbfd0, 0xbfff, 0xc02e, 0xc05d, 0xc08c, 0xc0bc, 0xc0eb, 0xc11a, 0xc149, 0xc178, 0xc1a8, 0xc1d7, 0xc206, 0xc235, 0xc265, 0xc294,
  0xc2c3, 0xc2f2, 0xc321, 0xc351, 0xc380, 0xc3af, 0xc3de, 0xc40d, 0xc43d, 0xc46c, 0xc49b, 0xc4ca, 0xc4fa, 0xc529, 0xc558, 0xc587,
  0xc5b6, 0xc5e6, 0xc615, 0xc644, 0xc673, 0xc6a3, 0xc6d2, 0xc701, 0xc730, 0xc75f, 0xc78f, 0xc7be, 0xc7ed, 0xc81c, 0xc84b, 0xc87b,
  0xc8aa, 0xc8d9, 0xc908, 0xc938, 0xc967, 0xc996, 0xc9c5, 0xc9f4, 0xca24, 0xca53, 0xca82, 0xcab1, 0xcae0, 0xcb10, 0xcb3f, 0xcb6e,
  0xcb9d, 0xcbcd, 0xcbfc, 0xcc2b, 0xcc5a, 0xcc89, 0xccb9, 0xcce8, 0xcd17, 0xcd46, 0xcd75, 0xcda5, 0xcdd4, 0xce03, 0xce32, 0xce62,
  0xce91, 0xcec0, 0xceef, 0xcf1e, 0xcf4e, 0xcf7d, 0xcfac, 0xcfdb, 0xd00a, 0xd03a, 0xd069, 0xd098, 0xd0c7, 0xd0f7, 0xd126, 0xd155,
  0xd184, 0xd1b3, 0xd1e3, 0xd212, 0xd241, 0xd270, 0xd2a0, 0xd2cf, 0xd2fe, 0xd32d, 0xd35c, 0xd38c, 0xd3bb, 0xd3ea, 0xd419, 0xd448,
  0xd478, 0xd4a7, 0xd4d6, 0xd505, 0xd535, 0xd564, 0xd593, 0xd5c2, 0xd5f1, 0xd621, 0xd650, 0xd67f, 0xd6ae, 0xd6dd, 0xd70d, 0xd73c,
  0xd76b, 0xd79a, 0xd7ca, 0xd7f9, 0xd828, 0xd857, 0xd886, 0xd8b6, 0xd8e5, 0xd914, 0xd943, 0xd972, 0xd9a2, 0xd9d1, 0xda00, 0xda2f,
  0xda5f, 0xda8e, 0xdabd, 0xdaec, 0xdb1b, 0xdb4b, 0xdb7a, 0xdba9, 0xdbd8, 0xdc07, 0xdc37, 0xdc66, 0xdc95, 0xdcc4, 0xdcf4, 0xdd23,
  0xdd52, 0xdd81, 0xddb0, 0xdde0, 0xde0f, 0xde3e, 0xde6d, 0xde9d, 0xdecc, 0xdefb, 0xdf2a, 0xdf59, 0xdf89, 0xdfb8, 0xdfe7, 0xe016,
  0xe045, 0xe075, 0xe0a4, 0xe0d3, 0xe102, 0xe132, 0xe161, 0xe190, 0xe1bf, 0xe1ee, 0xe21e, 0xe24d, 0xe27c, 0xe2ab, 0xe2da, 0xe30a,
  0xe339, 0xe368, 0xe397, 0xe3c7, 0xe3f6, 0xe425, 0xe454, 0xe483, 0xe4b3, 0xe4e2, 0xe511, 0xe540, 0xe56f, 0xe59f, 0xe5ce, 0xe5fd,
  0xe62c, 0xe65c, 0xe68b, 0xe6ba, 0xe6e9, 0xe718, 0xe748, 0xe777, 0xe7a6, 0xe7d5, 0xe804, 0xe834, 0xe863, 0xe892, 0xe8c1, 0xe8f1,
  0xe920, 0xe94f, 0xe97e, 0xe9ad, 0xe9dd, 0xea0c, 0xea3b, 0xea6a, 0xea9a, 0xeac9, 0xeaf8, 0xeb27, 0xeb56, 0xeb86, 0xebb5, 0xebe4,
  0xec13, 0xec42, 0xec72, 0xeca1, 0xecd0, 0xecff, 0xed2f, 0xed5e, 0xed8d, 0xedbc, 0xedeb, 0xee1b, 0xee4a, 0xee79, 0xeea8, 0xeed7,
  0xef07, 0xef36, 0xef65, 0xef94, 0xefc4, 0xeff3, 0xf022, 0xf051, 0xf080, 0xf0b0, 0xf0df, 0xf10e, 0xf13d, 0xf16c, 0xf19c, 0xf1cb,
  0xf1fa, 0xf229, 0xf259, 0xf288, 0xf2b7, 0xf2e6, 0xf315, 0xf345, 0xf374, 0xf3a3, 0xf3d2, 0xf401, 0xf431, 0xf460, 0xf48f, 0xf4be,
  0xf4ee, 0xf51d, 0xf54c, 0xf57b, 0xf5aa, 0xf5da, 0xf609, 0xf638, 0xf667, 0xf697, 0xf6c6, 0xf6f5, 0xf724, 0xf753, 0xf783, 0xf7b2,
  0xf7e1, 0xf810, 0xf83f, 0xf86f, 0xf89e, 0xf8cd, 0xf8fc, 0xf92c, 0xf95b, 0xf98a, 0xf9b9, 0xf9e8, 0xfa18, 0xfa47, 0xfa76, 0xfaa5,
  0xfad4, 0xfb04, 0xfb33, 0xfb62, 0xfb91, 0xfbc1, 0xfbf0, 0xfc1f, 0xfc4e, 0xfc7d, 0xfcad, 0xfcdc, 0xfd0b, 0xfd3a, 0xfd69, 0xfd99,
  0xfdc8, 0xfdf7, 0xfe26, 0xfe56, 0xfe85, 0xfeb4, 0xfee3, 0xff12, 0xff42, 0xff71, 0xffa0, 0xffcf, 0xffff
]

/-! ## Per-pixel color conversion (convertToRGB) -/

/-- Table lookup at a pinned, nonnegative int32 index. -/
def lutD (t : List Nat) (i : Int) : Int := (t.getD i.toNat 0 : Nat)

/-- One pixel of convertToRGB: the final (ri, gi, bi) lookup indices after
the color space chain of the micro CMM. lp, c1p, c2p are the planes as
functions of the linear index, with none for a NULL chroma pointer; the YCC
path dereferences the chroma pointers unconditionally, so with NULL chroma
it has no defined value (none). In the RGB path, C1i and C2i keep their
initial value 0 when the matching pointer is NULL. The D50 white balance
matrix and the linear light and sRGB tables follow, exactly as in the
source. -/
def convertPixelIndices (colorSpace whiteBalance resFactor columns : Nat)
    (lp : Nat → Nat) (c1p c2p : Option (Nat → Nat)) (row col : Nat) :
    Option (Int × Int × Int) :=
  let lumaIndex := col + row * columns
  let chromaIndex := (col >>> resFactor) + (row >>> resFactor) * (columns >>> resFactor)
  if colorSpace == kPCDYCCColorSpace then
    match c1p, c2p with
    | some c1f, some c2f =>
        some (pcdPin 0 (Int.tdiv ((lp lumaIndex <<< 10 : Nat) : Int) 188) 1388,
              pcdPin 0 (Int.tdiv ((c1f chromaIndex <<< 10 : Nat) : Int) 188) 1388,
              pcdPin 0 (Int.tdiv ((c2f chromaIndex <<< 10 : Nat) : Int) 188) 1388)
    | _, _ => none
  else
    let rgb := rgbIndices (lp lumaIndex) (c1p.map (fun f => f chromaIndex))
        (c2p.map (fun f => f chromaIndex))
    let rgb2 :=
      if colorSpace == kPCDLinearCCIR709ColorSpace || colorSpace == kPCDsRGBColorSpace then
        let ri := lutD toLinearLight rgb.1
        let gi := lutD toLinearLight rgb.2.1
        let bi := lutD toLinearLight rgb.2.2
        if whiteBalance == kPCDD50White then
          ((5930 * ri - 143 * gi + 393 * bi) >>> 13,
           ((-176) * ri + 6268 * gi + 131 * bi) >>> 13,
           (76 * ri - 128 * gi + 8256 * bi) >>> 13)
        else (ri, gi, bi)
      else rgb
    if colorSpace == kPCDsRGBColorSpace then
      some (lutD CCIR709tosRGB (pcdPin 0 rgb2.1 1388),
            lutD CCIR709tosRGB (pcdPin 0 rgb2.2.1 1388),
            lutD CCIR709tosRGB (pcdPin 0 rgb2.2.2 1388))
    else
      some (pcdPin 0 rgb2.1 1388, pcdPin 0 rgb2.2.1 1388, pcdPin 0 rgb2.2.2 1388)

/-! ## Bilinear up-resolution (upResInterpolate, upResBuffer) -/

/-- One destination pixel of the bilinear upResInterpolate kernel. For
destination (x, y) in a dest plane of the given width and height, the loop
iteration that writes it is row = y/2, column = x/2, and which of the four
write statements produced it is selected by the parities of x and y
(UseFourPixels is defined, so the odd-odd pixel averages four neighbours).
When hasDeltas, the signed delta already stored in the destination buffer at
the pixel is added; the chroma interpolation path always passes hasDeltas
false. The sum is clamped to 0..255. -/
def upResPixel (base : Nat → Nat) (width height : Nat)
    (delta : Option (Nat → Int)) (x y : Nat) : Nat :=
  let column := x >>> 1
  let row := y >>> 1
  let columnPlus := min (column + 1) ((width >>> 1) - 1)
  let rowPlus := min (row + 1) ((height >>> 1) - 1)
  let basePix : Int := base (column + row * (width >>> 1))
  let basePix01 : Int := base (columnPlus + row * (width >>> 1))
  let basePix10 : Int := base (column + rowPlus * (width >>> 1))
  let basePix11 : Int := base (columnPlus + rowPlus * (width >>> 1))
  let indexDelta := x + y * width
  let sum : Int :=
    if x % 2 == 0 && y % 2 == 0 then basePix
    else if y % 2 == 0 then (basePix + basePix01 + 1) >>> 1
    else if x % 2 == 0 then (basePix + basePix10 + 1) >>> 1
    else (basePix + basePix01 + basePix10 + basePix11 + 2) >>> 2
  let sum : Int := match delta with
    | some df => sum + df indexDelta
    | none => sum
  (if sum < 0 then 0 else if sum > 255 then 255 else sum).toNat

/-- The up-resolved plane of upResBuffer (bilinear path, no deltas) as a
function of the linear destination index. -/
def upResPlane (base : Nat → Nat) (width height : Nat) : Nat → Nat :=
  fun i => upResPixel base width height none (i % width) (i / width)

/-- pcdDecode::interpolateBuffers: for upResMethod at least kUpResIterpolate,
up-resolve each chroma plane to the luma dimensions (in two passes through an
intermediate plane when the chroma resolution factor is 2; PCDChromaResFactor
holds 1 for every scene, so a single pass) and set the resolution factor to
0; otherwise leave the planes and the factor unchanged. Returns the chroma
planes convertToRGB will read and the final resolution factor. -/
def interpolateBuffers (upResMethod sceneNumber : Nat)
    (chroma1 chroma2 : Option (Nat → Nat)) :
    Option (Nat → Nat) × Option (Nat → Nat) × Nat :=
  let lw := PCDLumaWidth.getD sceneNumber 0
  let lh := PCDLumaHeight.getD sceneNumber 0
  let resFactor := PCDChromaResFactor.getD sceneNumber 0
  if kUpResIterpolate ≤ upResMethod then
    let step : (Nat → Nat) → (Nat → Nat) := fun c =>
      if resFactor == 2 then
        upResPlane (upResPlane c (lw >>> 1) (lh >>> 1)) lw lh
      else upResPlane c lw lh
    (chroma1.map step, chroma2.map step, 0)
  else (chroma1, chroma2, resFactor)

/-! ## Output samples and decoder state -/

/-- One written output sample. The float output table holds C floats, which
are not modelled; a float color sample is represented by its LUT index and
the constant 1.0f alpha by f32One. -/
inductive OutSample where
  | u8 (v : Nat)
  | u16 (v : Nat)
  | f32 (lutIndex : Nat)
  | f32One
deriving DecidableEq

/-- The store of one color sample in the output format switch of
convertToRGB. -/
def formatSample (dataSize : Nat) (i : Int) : OutSample :=
  if dataSize == pcdFloatSize then OutSample.f32 i.toNat
  else if dataSize == pcdInt16Size then OutSample.u16 (uint16Output.getD i.toNat 0)
  else OutSample.u8 (uint8Output.getD i.toNat 0)

/-- The opaque alpha constant per output format. -/
def alphaSample (dataSize : Nat) : OutSample :=
  if dataSize == pcdFloatSize then OutSample.f32One
  else if dataSize == pcdInt16Size then OutSample.u16 0xffff
  else OutSample.u8 0xff

/-- The write convertToRGB performs for one source pixel: the destination
index and the three color samples, plus alpha when the alpha pointer is
non-null. -/
structure PixelWrite where
  destIdx : Nat
  red : OutSample
  green : OutSample
  blue : OutSample
  alpha : Option OutSample
deriving DecidableEq

/-- The data members of class pcdDecode that the claims touch. A plane
pointer is none when NULL, otherwise a function of the linear pixel index.
pcdFileHeader holds the loaded header bytes as a function of the byte offset
within struct PCDFile, none when NULL. deltas i j records whether delta
buffer deltas[i][j] is allocated. -/
structure DecodeState where
  monochrome : Bool
  upResMethod : Nat
  colorSpace : Nat
  whiteBalance : Nat
  imageRotate : Nat
  imageHuffmanClass : Nat
  sceneNumber : Nat
  baseScene : Nat
  errorString : String
  pcdFileHeader : Option (Nat → Nat)
  luma : Option (Nat → Nat)
  chroma1 : Option (Nat → Nat)
  chroma2 : Option (Nat → Nat)
  deltas : Nat → Nat → Bool

/-- pcdDecode::pcdDecode(), the constructor. The members the constructor does
not touch (sceneNumber, imageRotate and the other scalars) are uninitialised
in C; they are 0 here, and no claim reads them before they are assigned. -/
def initialState : DecodeState :=
  { monochrome := false, upResMethod := kUpResLumaIterpolate,
    colorSpace := kPCDRawColorSpace, whiteBalance := kPCDD65White,
    imageRotate := 0, imageHuffmanClass := 0, sceneNumber := 0, baseScene := 0,
    errorString := "", pcdFileHeader := none,
    luma := none, chroma1 := none, chroma2 := none, deltas := fun _ _ => false }

/-- pcdDecode::setInterpolation. -/
def setInterpolation (st : DecodeState) (value : Nat) : DecodeState :=
  { st with upResMethod := value }

/-- pcdDecode::setColorSpace. -/
def setColorSpace (st : DecodeState) (value : Nat) : DecodeState :=
  { st with colorSpace := value }

/-- pcdDecode::setWhiteBalance. -/
def setWhiteBalance (st : DecodeState) (value : Nat) : DecodeState :=
  { st with whiteBalance := value }

/-- pcdDecode::setIsMonoChrome: monochrome = monochrome | val. The flag can
be set but never cleared again. -/
def setIsMonoChrome (st : DecodeState) (val : Bool) : DecodeState :=
  { st with monochrome := st.monochrome || val }

/-- pcdDecode::isMonochrome. -/
def isMonochrome (st : DecodeState) : Bool := st.monochrome

/-- pcdDecode::getErrorString. -/
def getErrorString (st : DecodeState) : String := st.errorString

/-! ## populateBuffers -/

/-- pcdDecode::populateBuffers, observed per source pixel: the write the
convertToRGB worker performs for source pixel (row, col) with stride d, or
none when no file is loaded (the early return: nothing is written to any
caller buffer and the decoder members stay untouched). The chroma planes
pass through interpolateBuffers and are replaced by NULL in the thread data
when monochrome is set. populateBuffers itself modifies no decoder member,
so the state is left implicit. -/
def populateBuffers (st : DecodeState) (hasAlpha : Bool) (d dataSize row col : Nat) :
    Option PixelWrite :=
  match st.pcdFileHeader with
  | none => none
  | some _ =>
    match st.luma with
    | none => none
    | some lp =>
      let ib := interpolateBuffers st.upResMethod st.sceneNumber st.chroma1 st.chroma2
      let c1p := if st.monochrome then none else ib.1
      let c2p := if st.monochrome then none else ib.2.1
      let resFactor := ib.2.2
      let columns := PCDLumaWidth.getD st.sceneNumber 0
      let rows := PCDLumaHeight.getD st.sceneNumber 0
      match convertPixelIndices st.colorSpace st.whiteBalance resFactor columns
          lp c1p c2p row col with
      | none => none
      | some rgb =>
        some { destIdx := destIndex st.imageRotate columns rows d row col,
               red := formatSample dataSize rgb.1,
               green := formatSample dataSize rgb.2.1,
               blue := formatSample dataSize rgb.2.2,
               alpha := if hasAlpha then some (alphaSample dataSize) else none }

/-- pcdDecode::populateFloatBuffers: populateBuffers at pcdFloatSize. -/
def populateFloatBuffers (st : DecodeState) (hasAlpha : Bool) (d row col : Nat) :
    Option PixelWrite :=
  populateBuffers st hasAlpha d pcdFloatSize row col

/-- pcdDecode::populateUInt16Buffers: populateBuffers at pcdInt16Size. -/
def populateUInt16Buffers (st : DecodeState) (hasAlpha : Bool) (d row col : Nat) :
    Option PixelWrite :=
  populateBuffers st hasAlpha d pcdInt16Size row col

/-- pcdDecode::populateUInt8Buffers: populateBuffers at pcdByteSize. -/
def populateUInt8Buffers (st : DecodeState) (hasAlpha : Bool) (d row col : Nat) :
    Option PixelWrite :=
  populateBuffers st hasAlpha d pcdByteSize row col

/-! ## Claim C1 -/

/-- A decoder state as after a successful Base16 parse: header loaded,
uniform planes (luma 100, chroma1 200, chroma2 at its neutral 137), raw
color space, D65 white balance, bilinear interpolation, no rotation. -/
def chromaDemoState : DecodeState :=
  { initialState with
      pcdFileHeader := some (fun _ => 0),
      luma := some (fun _ => 100),
      chroma1 := some (fun _ => 200),
      chroma2 := some (fun _ => 137),
      upResMethod := kUpResIterpolate,
      sceneNumber := kBase16 }

/-! ## Endian neutral reads and byte string utilities -/

/-- getPCD16 at a byte offset of a header viewed as a byte function. -/
def getPCD16 (h : Nat → Nat) (off : Nat) : Nat :=
  (h off <<< 8) ||| h (off + 1)

/-- getPCD32 at a byte offset. -/
def getPCD32 (h : Nat → Nat) (off : Nat) : Nat :=
  (h off <<< 24) ||| (h (off + 1) <<< 16) ||| (h (off + 2) <<< 8) ||| h (off + 3)

/-- The bytes of an ASCII string literal. -/
def strBytes (s : String) : List Nat := s.toList.map Char.toNat

/-- compareBytes(buffer + off, string) == 0: the first strlen(string) bytes
at off match the string. -/
def compareBytesEq (h : Nat → Nat) (off : Nat) (s : String) : Bool :=
  (List.range (strBytes s).length).all (fun i => h (off + i) == (strBytes s).getD i 0)

/-- copyWithoutPadding: the len bytes at off with trailing spaces removed,
decoded as characters. -/
def copyWithoutPadding (h : Nat → Nat) (off len : Nat) : String :=
  String.mk ((((List.range len).map (fun i => Char.ofNat (h (off + i)))).reverse.dropWhile
    (fun c => c == ' ')).reverse)

/-! ## Byte offsets inside struct PCDFile (header 2048 bytes, IPIHeader 1536
bytes at 2048, ImageComponentAttributes iciBase16 at 3584; all fields are
byte arrays, so there is no padding) -/

def specificationVersionOff : Nat := 2055

def authoringSoftwareReleaseOff : Nat := 2057

def imageScanningTimeOff : Nat := 2061

def imageModificationTimeOff : Nat := 2065

def imageMediumOff : Nat := 2069

def productTypeOff : Nat := 2070

def scannerVendorIdentityOff : Nat := 2090

def scannerProductIdentityOff : Nat := 2110

def scannerFirmwareRevisionOff : Nat := 2126

def scannerFirmwareDateOff : Nat := 2130

def scannerSerialNumberOff : Nat := 2138

def scannerPixelSizeOff : Nat := 2158

def piwEquipmentManufacturerOff : Nat := 2160

def photoFinisherCharSetOff : Nat := 2180

def photoFinisherNameOff : Nat := 2213

def sbaSignatureOff : Nat := 2273

def sbaCommandOff : Nat := 2278

def sbaFTNOff : Nat := 2373

def copyrightStatusOff : Nat := 2379

def copyrightFileOff : Nat := 2380

def iciBase16AttributesOff : Nat := 3586

def iciBase16SectorStop4BaseOff : Nat := 3587

def iciBase16InterleaveRatioOff : Nat := 3593

/-! ## Metadata tables (pcdDecode.cpp) -/

def kMaxPCDmediums : Nat := 10

def kMaxSBATypes : Nat := 4

def PCDMetadataDescriptions : List String := [
  "PCD specification version",
  "Authoring software Release number",
  "Scanning time",
  "Last modification time",
  "Image medium",
  "Product type",
  "Scanner vendor identity",
  "Scanner product identity",
  "Scanner firmware revision",
  "Scanner firmware date",
  "Scanner serial number",
  "Scanner pixel size (microns)",
  "Image workstation equipment manufacturer",
  "Photo finisher name",
  "Scene balance algorithm revision",
  "Scene balance algorithm command",
  "Scene balance algorithm film identification",
  "Copyright status",
  "Copyright file name",
  "Compression"]

def PCDMediumTypes : List String := [
  "color negative",
  "color reversal",
  "color hard copy",
  "thermal hard copy",
  "black and white negative",
  "black and white reversal",
  "black and white hard copy",
  "internegative",
  "synthetic image",
  "chromogenic"]

def PCDSBATypes : List String := [
  "neutral SBA on, color SBA on",
  "neutral SBA off, color SBA off",
  "neutral SBA on, color SBA off",
  "neutral SBA off, color SBA on"]

def PCDHuffmanClasses : List String := [
  "class 1 - 35mm film; pictoral hard copy",
  "class 2 - large format film",
  "class 3 - text and graphics, high resolution",
  "class 4 - text and graphics, high dynamic range"]

/-! ## getMetadata -/

/-- The value string written by the metadata switch of pcdDecode::getMetadata
for a header whose IPI signature matched, by select index. asctimeF stands
for the C library formatting of a timestamp by localtime and asctime with the
trailing newline removed (not repository code); filmName stands for the scan
of the 219 entry PCDFTN_PC_GC_Medium and PCDMediumNames tables that yields
the film name for an FTN code, with its built in default string for an
unknown code. sprintf with the d conversion agrees with toString on Nat. -/
def metadataValue (asctimeF : Nat → String) (filmName : Nat → String)
    (st : DecodeState) (h : Nat → Nat) (select : Nat) : String :=
  match select with
  | 0 =>
      if getPCD32 h specificationVersionOff == 0xffff then "-"
      else toString (h specificationVersionOff) ++ "." ++
        toString (h (specificationVersionOff + 1))
  | 1 =>
      if getPCD32 h authoringSoftwareReleaseOff == 0xffff then "-"
      else toString (h authoringSoftwareReleaseOff) ++ "." ++
        toString (h (authoringSoftwareReleaseOff + 1))
  | 2 =>
      if getPCD32 h imageScanningTimeOff == 0xffff then "-"
      else asctimeF (getPCD32 h imageScanningTimeOff)
  | 3 =>
      if getPCD32 h imageModificationTimeOff == 0xffff then "-"
      else asctimeF (getPCD32 h imageModificationTimeOff)
  | 4 =>
      if h imageMediumOff < kMaxPCDmediums then
        PCDMediumTypes.getD (h imageMediumOff) ""
      else "-"
  | 5 => copyWithoutPadding h productTypeOff 20
  | 6 => copyWithoutPadding h scannerVendorIdentityOff 20
  | 7 => copyWithoutPadding h scannerProductIdentityOff 16
  | 8 => copyWithoutPadding h scannerFirmwareRevisionOff 4
  | 9 => copyWithoutPadding h scannerFirmwareDateOff 8
  | 10 => copyWithoutPadding h scannerSerialNumberOff 20
  | 11 =>
      toString ((h scannerPixelSizeOff >>> 4) &&& 0xf) ++
      toString (h scannerPixelSizeOff &&& 0xf) ++ "." ++
      toString ((h (scannerPixelSizeOff + 1) >>> 4) &&& 0xf) ++
      toString (h (scannerPixelSizeOff + 1) &&& 0xf)
  | 12 => copyWithoutPadding h piwEquipmentManufacturerOff 20
  | 13 =>
      -- the source copies sizeof(piwEquipmentManufacturer) = 20 bytes here
      if h photoFinisherCharSetOff < 5 then copyWithoutPadding h photoFinisherNameOff 20
      else "-"
  | 14 =>
      -- the source prints the specification version bytes for the SBA revision
      if ¬compareBytesEq h sbaSignatureOff "SBA" ||
          getPCD32 h specificationVersionOff == 0xffff then "-"
      else toString (h specificationVersionOff) ++ "." ++
        toString (h (specificationVersionOff + 1))
  | 15 =>
      if ¬compareBytesEq h sbaSignatureOff "SBA" || kMaxSBATypes ≤ h sbaCommandOff then "-"
      else PCDSBATypes.getD (h sbaCommandOff) ""
  | 16 =>
      if ¬compareBytesEq h sbaSignatureOff "SBA" then "-"
      else filmName (getPCD16 h sbaFTNOff)
  | 17 =>
      if h copyrightStatusOff == 0x1 then
        "Copyright restrictions apply - see copyright file on original CD-ROM for details"
      else "Copyright restrictions not specified"
  | 18 =>
      if h copyrightStatusOff == 0x1 then copyWithoutPadding h copyrightFileOff 12
      else "-"
  | 19 => PCDHuffmanClasses.getD st.imageHuffmanClass ""
  | _ => "-"

/-- pcdDecode::getMetadata: the pair of strings written to the description
buffer (none when the description pointer is NULL) and the value buffer. -/
def getMetadata (asctimeF : Nat → String) (filmName : Nat → String)
    (st : DecodeState) (select : Nat) (hasDescription : Bool) :
    Option String × String :=
  match st.pcdFileHeader with
  | none => (if hasDescription then some "Error" else none, "Error")
  | some h =>
    if kMaxPCDMetadata ≤ select then
      (if hasDescription then some "Error" else none, "Error")
    else
      let desc := if hasDescription then some (PCDMetadataDescriptions.getD select "") else none
      if compareBytesEq h 2048 "PCD_IPI" then
        (desc, metadataValue asctimeF filmName st h select)
      else (desc, "-")

/-! ## File environment oracles for the parse stage

parseFile and parseICFile read from the file system; the embedding supplies
the outcome of every such step in an environment record. Every field can be
realised by an actual file, and the control flow that consumes the outcomes
is transcribed from the source. -/

/-- Outcomes of the steps of pcdDecode::parseICFile on the companion file.
icTryBody is none when the whole try block runs to completion, or some
message when a throw unwinds it (IC File too small, Invalid number of
layers, Invalid number of IPE files, a Huffman table error, an extension
file that fails to open, or end of file inside a sequence). icLayers3 tells
whether the descriptor holds three layers. -/
structure ICEnv where
  fnameLongEnough : Bool
  icOpens : Bool
  icSizeOk : Bool
  icAllocOk : Bool
  icLayers3 : Bool
  icTryBody : Option String

/-- Outcomes of the steps of pcdDecode::parseFile on the primary file.
headerBytes is some h when the full sizeof(PCDFile) bytes could be read.
baseReadOk s tells whether the readBaseImage try body (buffer allocation
plus a complete interleaved read) succeeds at scene s, and the three plane
functions give the bytes it stores. fourBaseTryBody and sixteenBaseTryBody
are none when the corresponding delta reading block completes, or some
message when a throw unwinds it. -/
structure ParseEnv where
  fileOpens : Bool
  headerAllocOk : Bool
  headerBytes : Option (Nat → Nat)
  baseReadOk : Nat → Bool
  lumaPlane : Nat → Nat
  chroma1Plane : Nat → Nat
  chroma2Plane : Nat → Nat
  hTablesAllocOk : Bool
  fourBaseTryBody : Option String
  sixteenBaseTryBody : Option String
  ic : ICEnv

/-! ## readBaseImage -/

/-- The while loop of readBaseImage: walk the scene number down from the
start level until a level reads completely, freeing the partial buffers and
decrementing on every failure; the C loop variable is an int that reaches -1
when even Base16 fails. -/
def readBaseLoop (ok : Nat → Bool) : Nat → Int
  | 0 => if ok 0 then 0 else -1
  | s + 1 => if ok (s + 1) then (s : Int) + 1 else readBaseLoop ok s

/-- readBaseImage: clamp the requested scene to kBase, then run the retry
loop; returns the scene that was read, or -1. -/
def readBaseImage (sceneNumber : Nat) (ok : Nat → Bool) : Int :=
  readBaseLoop ok (min sceneNumber kBase)

/-! ## parseICFile -/

/-- pcdDecode::parseICFile. The early failures before the try block write
their message into errorString directly. A throw inside the try block lands
in a catch whose errorString write is guarded by errorString == NULL;
errorString is a char array member of pcdDecode, whose address is never
NULL, so the guarded write is dead code and the message is lost; the catch
path then frees the 64Base delta buffers. On success the 64Base delta
buffers stay allocated: the luma buffer always, the chroma buffers when the
descriptor has three layers and monochrome is not set (monochrome overrides
the layer count to 1). -/
def parseICFile (env : ICEnv) (st : DecodeState) : Bool × DecodeState :=
  if ¬env.fnameLongEnough then
    (false, { st with errorString := "IPE filename too short to be valid" })
  else if ¬env.icOpens then
    (false, { st with errorString := "Could not open 64Base IPE file" })
  else if ¬env.icSizeOk then
    (false, { st with errorString := "Could not read 64Base IPE file" })
  else if ¬env.icAllocOk then
    (false, { st with errorString := "Could not allocate huffman tables" })
  else
    match env.icTryBody with
    | some _ =>
        (false, { st with deltas := fun i j =>
            if i == k64Base - k4Base then false else st.deltas i j })
    | none =>
        (true, { st with deltas := fun i j =>
            if i == k64Base - k4Base &&
                (j == 0 || (env.icLayers3 && ¬st.monochrome && (j == 1 || j == 2))) then
              true
            else st.deltas i j })

/-! ## parseFile -/

/-- The delta reading stage of pcdDecode::parseFile (the body of the
if (sceneNumber >= k4Base) block): read the 4Base deltas, then the 16Base
deltas, then hand the companion file to parseICFile, downgrading the scene
number at each failure. Every catch block write to errorString is guarded by
the always false errorString == NULL test, so a downgrade leaves errorString
untouched; a failed stage frees the delta buffers of that stage. Returns the
final scene number and state. -/
def parseDeltaStage (env : ParseEnv) (sceneNumber : Nat) (st : DecodeState) :
    Nat × DecodeState :=
  if k4Base ≤ sceneNumber then
    if ¬env.hTablesAllocOk then
      (sceneNumber, { st with errorString := "Could not allocate huffman tables" })
    else
      match env.fourBaseTryBody with
      | some _ =>
          (kBase, { st with deltas := fun i j =>
              if i == k4Base - k4Base && j == 0 then false else st.deltas i j })
      | none =>
        let st := { st with deltas := fun i j =>
            if i == k4Base - k4Base && j == 0 then true else st.deltas i j }
        if k16Base ≤ sceneNumber then
          match env.sixteenBaseTryBody with
          | some _ =>
              (k4Base, { st with deltas := fun i j =>
                  if i == k16Base - k4Base then false else st.deltas i j })
          | none =>
            let st := { st with deltas := fun i j =>
                if i == k16Base - k4Base && (j == 0 || ¬st.monochrome && (j == 1 || j == 2))
                then true else st.deltas i j }
            if k64Base ≤ sceneNumber then
              let ic := parseICFile env.ic st
              if ic.1 then (sceneNumber, ic.2)
              else (k16Base, ic.2)
            else (sceneNumber, st)
        else (sceneNumber, st)
  else (sceneNumber, st)

/-- The resolution limit in parseFile: if (imageResolution < k16Base)
sceneNumber = pcdMin(sceneNumber, imageResolution). -/
def clampToResolution (sceneNumber imageResolution : Nat) : Nat :=
  if imageResolution < k16Base then min sceneNumber imageResolution else sceneNumber

/-- The base image fallback in parseFile: when the base image read came back
below kBase, no deltas exist and the scene number becomes the level actually
read. -/
def sceneAfterBase (sceneNumber : Nat) (baseScene : Int) : Nat :=
  if baseScene < (kBase : Int) then baseScene.toNat else sceneNumber

/-- pcdDecode::parseFile. The environment supplies the file outcomes; sNum is
the requested scene. Returns the C return value and the decoder state; the
final sceneNumber member is the actual decoded level. -/
def parseFile (env : ParseEnv) (sNum : Nat) (st0 : DecodeState) : Bool × DecodeState :=
  -- pcdFreeAll and errorString[0] = 0
  let st := { st0 with luma := none, chroma1 := none, chroma2 := none,
                       pcdFileHeader := none, deltas := fun _ _ => false,
                       errorString := "" }
  if ¬env.fileOpens then
    (false, { st with errorString :=
        "Could not open PCD file - may be a file permissions problem" })
  else if ¬env.headerAllocOk then
    (false, st)
  else
    match env.headerBytes with
    | none =>
        (false, { st with errorString := "PCD file is too small to be valid" })
    | some h =>
      let st := { st with pcdFileHeader := some h }
      let overview := compareBytesEq h 0 "PCD_OPA"
      if ¬compareBytesEq h 2048 "PCD_IPI" && ¬overview then
        (false, { st with pcdFileHeader := none,
                          errorString := "That is not a valid PCD file" })
      else if h iciBase16InterleaveRatioOff ≠ 1 then
        (false, { st with pcdFileHeader := none,
                          errorString := "The file contains interleaved audio" })
      else
        let attributes := h iciBase16AttributesOff
        let imageResolution := ((attributes >>> 2) &&& 0x03) + kBase
        let st := { st with imageRotate := attributes &&& 0x03,
                            imageHuffmanClass := (attributes >>> 5) &&& 0x02 }
        let sceneNumber := clampToResolution sNum imageResolution
        let baseScene := readBaseImage sceneNumber env.baseReadOk
        if baseScene < (kBase16 : Int) then
          (false, { st with errorString := "No valid base image could be found" })
        else
          let st := { st with luma := some env.lumaPlane,
                              chroma1 := some env.chroma1Plane,
                              chroma2 := some env.chroma2Plane,
                              baseScene := baseScene.toNat }
          let stage := parseDeltaStage env (sceneAfterBase sceneNumber baseScene) st
          (true, { stage.2 with sceneNumber := stage.1 })

/-! ## Concrete parse environment: valid primary file, malformed companion -/

/-- A companion IC file that opens and reads but whose descriptor is
malformed, so the try block of parseICFile throws (for instance a layer
count of 2: Invalid number of layers). -/
def malformedICEnv : ICEnv :=
  { fnameLongEnough := true, icOpens := true, icSizeOk := true, icAllocOk := true,
    icLayers3 := true, icTryBody := some "Invalid number of layers" }

/-- Header bytes of a valid PCD primary file: PCD_IPI signature at byte
2048, interleave ratio 1, attribute bits 0x08 (native resolution class
16Base, rotation 0), everything else zero. -/
def demoHeaderBytes : Nat → Nat := fun i =>
  if 2048 ≤ i ∧ i < 2055 then (strBytes "PCD_IPI").getD (i - 2048) 0
  else if i = iciBase16InterleaveRatioOff then 1
  else if i = iciBase16AttributesOff then 0x08
  else 0

/-- A primary file whose base image reads at kBase and whose 4Base and
16Base delta stages succeed, paired with the malformed companion file. -/
def demoParseEnv : ParseEnv :=
  { fileOpens := true, headerAllocOk := true, headerBytes := some demoHeaderBytes,
    baseReadOk := fun s => s == kBase, lumaPlane := fun _ => 0,
    chroma1Plane := fun _ => 156, chroma2Plane := fun _ => 137,
    hTablesAllocOk := true, fourBaseTryBody := none, sixteenBaseTryBody := none,
    ic := malformedICEnv }

/-! ## Supporting lemmas for the Huffman recovery theorems -/

theorem zeroSequence_length (dest : List Nat) (dstart n : Nat) :
    (zeroSequence dest dstart n).length = dest.length := by
  unfold zeroSequence
  induction n with
  | zero => simp
  | succ n ih => rw [List.range_succ, List.foldl_append]; simp [ih]

theorem zeroSequence_getD (n : Nat) (dest : List Nat) (dstart j d : Nat)
    (hj : j < n) (hb : dstart + n ≤ dest.length) :
    (zeroSequence dest dstart n).getD (dstart + j) d = 0 := by
  induction n with
  | zero => omega
  | succ n ih =>
    have hzl : (zeroSequence dest dstart n).length = dest.length :=
      zeroSequence_length dest dstart n
    have hstep : zeroSequence dest dstart (n + 1) =
        (zeroSequence dest dstart n).set (dstart + n) 0 := by
      unfold zeroSequence
      rw [List.range_succ, List.foldl_append]
      simp
    rw [hstep]
    rcases Nat.lt_or_ge j n with hlt | hge
    · rw [List.getD_eq_getElem?_getD, List.getElem?_set_ne (by omega),
        ← List.getD_eq_getElem?_getD]
      exact ih hlt (by omega)
    · have hjn : j = n := by omega
      subst hjn
      rw [List.getD_eq_getElem?_getD, List.getElem?_set_self (by omega)]
      simp

theorem decodeLoop_error_zero (huf : HuffTable) (dstart n : Nat) :
    ∀ (remaining i : Nat) (b : ReadBuffer) (dest d2 : List Nat) (b2 : ReadBuffer),
      dstart + n ≤ dest.length →
      decodeLoop huf dstart n remaining i b dest = some (d2, b2, true) →
      ∀ j, j < n → d2.getD (dstart + j) 1 = 0 := by
  intro remaining
  induction remaining with
  | zero =>
    intro i b dest d2 b2 hb h
    simp [decodeLoop] at h
  | succ remaining ih =>
    intro i b dest d2 b2 hb h
    rw [decodeLoop] at h
    by_cases herr : huf.len ((b.sum >>> 16) &&& 0xffff) == kHuffmanErrorLen
    · simp only [herr, if_true] at h
      cases hs : syncHuffman b with
      | none => rw [hs] at h; simp at h
      | some b3 =>
        rw [hs] at h
        simp at h
        obtain ⟨h1, _, _⟩ := h
        intro j hj
        rw [← h1]
        exact zeroSequence_getD n dest dstart j 1 hj hb
    · simp only [herr, if_false] at h
      cases hg : PCDGetBits b (huf.len ((b.sum >>> 16) &&& 0xffff)) with
      | none => rw [hg] at h; simp at h
      | some b3 =>
        rw [hg] at h
        exact ih (i + 1) b3 (dest.set (dstart + i) (huf.key ((b.sum >>> 16) &&& 0xffff)))
          d2 b2 (by simpa using hb) h

/-! ## Claim C4 -/

/-- Claim C4 counterexample: decoding one symbol of the demo stream stores
symbol 42 at position 0; decoding two symbols hits the error sentinel at the
second symbol and the recovery path then zeroes position 0 as well, instead
of leaving the already decoded symbol 42 in place as the claim states. -/
theorem huffmanRecoveryCounterexample :
    ((PCDDecodeHuffman huffDemoRB huffDemoTable [7, 7] 0 1).map (fun r => r.1) =
      some [42, 7]) ∧
    ((PCDDecodeHuffman huffDemoRB huffDemoTable [7, 7] 0 2).map (fun r => r.1) =
      some [0, 0]) ∧
    ((PCDDecodeHuffman huffDemoRB huffDemoTable [7, 7] 0 2).map (fun r => r.2.2) =
      some true) ∧ (42 ≠ 0) := by
  refine ⟨by decide, by decide, by decide, by decide⟩

/-- Claim C4 (amended): when a Huffman decode of n symbols hits the error
sentinel at any symbol, the recovery path writes zero to all n destination
positions of the sequence, the already decoded symbols included, then resyncs
and returns so the caller resumes at the next sequence boundary. -/
theorem huffmanRecoveryZeroesWholeSequence (huf : HuffTable) (b b2 : ReadBuffer)
    (dest d2 : List Nat) (dstart n : Nat)
    (hb : dstart + n ≤ dest.length)
    (h : PCDDecodeHuffman b huf dest dstart n = some (d2, b2, true)) :
    ∀ j, j < n → d2.getD (dstart + j) 1 = 0 :=
  decodeLoop_error_zero huf dstart n n 0 b dest d2 b2 hb h

/-- Claim C4 witness: the amended theorem applied to the concrete demo run,
whose recovery flag is set and whose destination came out all zero. -/
theorem huffmanRecoveryZeroesWholeSequenceWitness :
    (0 : Nat) + 2 ≤ ([7, 7] : List Nat).length ∧
    ([0, 0] : List Nat).getD (0 + 0) 1 = 0 :=
  ⟨by decide,
    huffmanRecoveryZeroesWholeSequence huffDemoTable huffDemoRB
      { sum := 0xfffffe00, bits := 32, data := [0, 0, 0] }
      [7, 7] [0, 0] 0 2 (by decide) (by decide) 0 (by decide)⟩

/-! ## Claim C5 -/

/-- Claim C5 counterexample: the sequence header fields are not extracted with
the mask and scaling the claim states. At FourBase the plane mask is 0x3, not
0x6 (register 0x01000000 yields plane 0, the claimed formula yields 4); at
Base all shifts and masks are zero (register 0x200 yields row 0, the claimed
formula yields 1); at SixtyFourBase the row doubling applies to the chroma
planes, not to luma (luma header 0x140 keeps row 5 where the claim doubles
it to 10, and chroma header 0x100140 is doubled to 10 where the claim
keeps 5). -/
theorem deltaHeaderCounterexample :
    (deltaHeaderPlane k4Base 0x01000000 = 0 ∧ ((0x01000000 >>> 22) &&& 0x6) = 4) ∧
    (deltaHeaderRow kBase 0x200 = 0 ∧ ((0x200 >>> 9) &&& 0x1fff) = 1) ∧
    (deltaHeaderPlane k64Base 0x140 = 0 ∧ deltaHeaderRowScaled k64Base 0x140 = 5 ∧
      2 * ((0x140 >>> 6) &&& 0x3fff) = 10) ∧
    (deltaHeaderPlane k64Base 0x100140 = 2 ∧ deltaHeaderRowScaled k64Base 0x100140 = 10 ∧
      ((0x100140 >>> 6) &&& 0x3fff) = 5) := by
  decide

/-- Claim C5 (amended): the delta decoder is invoked at FourBase, SixteenBase
and SixtyFourBase only. At FourBase and SixteenBase it extracts
plane = (acc >> 22) & 0x3 and row = (acc >> 9) & 0x1fff, with no row scaling
(rows at or beyond the luma height are skipped, not reduced modulo the
height); at SixtyFourBase it extracts plane = (acc >> 19) & 0x6,
row = (acc >> 6) & 0x3fff and sequence = (acc >> 1) & 0xf, and the row is
multiplied by 2 for the chroma planes (plane not 0), not for luma. -/
theorem deltaHeaderFields : ∀ acc : Nat,
    (deltaHeaderPlane k4Base acc = (acc >>> 22) &&& 0x3) ∧
    (deltaHeaderRow k4Base acc = (acc >>> 9) &&& 0x1fff) ∧
    (deltaHeaderRowScaled k4Base acc = (acc >>> 9) &&& 0x1fff) ∧
    (deltaHeaderPlane k16Base acc = (acc >>> 22) &&& 0x3) ∧
    (deltaHeaderRow k16Base acc = (acc >>> 9) &&& 0x1fff) ∧
    (deltaHeaderRowScaled k16Base acc = (acc >>> 9) &&& 0x1fff) ∧
    (deltaHeaderPlane k64Base acc = (acc >>> 19) &&& 0x6) ∧
    (deltaHeaderRow k64Base acc = (acc >>> 6) &&& 0x3fff) ∧
    (deltaHeaderSequence k64Base acc = (acc >>> 1) &&& 0xf) ∧
    (deltaHeaderRowScaled k64Base acc =
      (if (acc >>> 19) &&& 0x6 = 0 then ((acc >>> 6) &&& 0x3fff)
       else 2 * ((acc >>> 6) &&& 0x3fff))) := by
  intro acc
  refine ⟨rfl, rfl, ?_, rfl, rfl, ?_, rfl, rfl, rfl, ?_⟩
  · simp [deltaHeaderRowScaled, deltaHeaderRow, deltaHeaderPlane, k4Base,
      RowShift, RowMask, RowSubSample]
  · simp [deltaHeaderRowScaled, deltaHeaderRow, deltaHeaderPlane, k16Base,
      RowShift, RowMask, RowSubSample]
  · simp [deltaHeaderRowScaled, deltaHeaderRow, deltaHeaderPlane,
      deltaHeaderSequence, k64Base, RowShift, RowMask, RowSubSample,
      PlaneShift, PlaneMask]
    split <;> omega

/-! ## Claim C8 -/

theorem syncBitLoop_post (fuel : Nat) :
    ∀ (b b2 : ReadBuffer), syncBitLoop fuel b = some b2 →
      b2.sum &&& 0xffffff00 = 0xfffffe00 := by
  induction fuel with
  | zero => intro b b2 h; simp [syncBitLoop] at h
  | succ fuel ih =>
    intro b b2 h
    rw [syncBitLoop] at h
    by_cases hc : (b.sum &&& 0xffffff00) == 0xfffffe00
    · simp only [hc, if_true] at h
      have hb : b = b2 := by simpa using h
      rw [← hb]
      simpa using hc
    · simp only [hc, if_false] at h
      cases hg : PCDGetBits b 1 with
      | none => rw [hg] at h; simp at h
      | some b3 => rw [hg] at h; exact ih b3 b2 h

/-- Claim C8 counterexample: syncHuffman terminates exactly when the top 24
bits of the register equal 0xfffffe, not when the top 20 bits equal 0xfffe0
shifted; at register 0xfffffe00 it stops immediately with top 20 bits equal
to 0xfffff, different from the claimed 0xffffe, while at register 0xffffe000,
whose top 20 bits are exactly 0xffffe, it does not stop but scans on to the
end of the stream. -/
theorem syncCounterexample :
    (syncHuffman { sum := 0xfffffe00, bits := 32, data := [] } =
      some { sum := 0xfffffe00, bits := 32, data := [] }) ∧
    ((0xfffffe00 >>> 12) &&& 0xfffff = 0xfffff) ∧ ((0xfffff : Nat) ≠ 0xffffe) ∧
    (syncHuffman { sum := 0xffffe000, bits := 32, data := [] } = none) ∧
    ((0xffffe000 >>> 12) &&& 0xfffff = 0xffffe) := by
  refine ⟨by decide, by decide, by decide, by decide, by decide⟩

theorem syncByteLoop_stop (fuel : Nat) (b : ReadBuffer)
    (h : b.sum &&& 0x00fff000 = 0x00fff000) : syncByteLoop (fuel + 1) b = some b := by
  simp [syncByteLoop, h]

theorem syncBitLoop_stop (fuel : Nat) (b : ReadBuffer)
    (h : b.sum &&& 0xffffff00 = 0xfffffe00) : syncBitLoop (fuel + 1) b = some b := by
  simp [syncBitLoop, h]

/-- Claim C8 (amended): syncHuffman first advances 8 bits at a time until
bits 23..12 of the accumulator are all ones, then advances one bit at a time,
and terminates exactly when the top 24 bits of the 32-bit accumulator equal
0xfffffe: whenever it returns, the top 24 bits of the result equal 0xfffffe,
and on an accumulator already satisfying that condition it stops at once
without consuming anything. -/
theorem syncTerminationCondition :
    (∀ b b2 : ReadBuffer, syncHuffman b = some b2 →
        b2.sum &&& 0xffffff00 = 0xfffffe00) ∧
    (∀ b : ReadBuffer, b.sum &&& 0xffffff00 = 0xfffffe00 → syncHuffman b = some b) := by
  constructor
  · intro b b2 h
    unfold syncHuffman at h
    cases hb : syncByteLoop (8 * b.data.length + b.bits + 1) b with
    | none => rw [hb] at h; simp at h
    | some b3 =>
      rw [hb] at h
      exact syncBitLoop_post _ b3 b2 h
  · intro b hcond
    have h12 : b.sum &&& 0x00fff000 = 0x00fff000 := by
      have hsub : (0xffffff00 : Nat) &&& 0x00fff000 = 0x00fff000 := by decide
      calc b.sum &&& 0x00fff000 = b.sum &&& (0xffffff00 &&& 0x00fff000) := by rw [hsub]
        _ = (b.sum &&& 0xffffff00) &&& 0x00fff000 := by rw [Nat.land_assoc]
        _ = 0xfffffe00 &&& 0x00fff000 := by rw [hcond]
        _ = 0x00fff000 := by decide
    simp only [syncHuffman, syncByteLoop_stop _ _ h12, syncBitLoop_stop _ _ hcond]

/-- Claim C8 witness: the amended theorem applied at the concrete register
0xfffffe00, which satisfies the stop condition. -/
theorem syncTerminationConditionWitness :
    syncHuffman { sum := 0xfffffe00, bits := 32, data := [0xff] } =
      some { sum := 0xfffffe00, bits := 32, data := [0xff] } :=
  syncTerminationCondition.2 { sum := 0xfffffe00, bits := 32, data := [0xff] } (by decide)

/-! ## Claim C7 -/

/-- Claim C7: for every pixel converted in an RGB color-space mode with both
chroma planes present, the converter computes exactly the indices the
specification gives: Li = L*5573, C1i = (c1-156)*9085, C2i = (c2-137)*7461,
R = clamp((Li+C2i)>>10, 0, 1388), G = clamp((Li>>10) - C1i/5278 - C2i/2012,
0, 1388), B = clamp((Li+C1i)>>10, 0, 1388), in exact integer arithmetic with
truncating division. -/
theorem rgbIndicesMatchSpec : ∀ L c1 c2 : Nat,
    rgbIndices L (some c1) (some c2) = specRGBIndices L c1 c2 :=
  fun _ _ _ => rfl

/-! ## Claim C6 -/

/-- Claim C6 counterexample: for the 192 by 128 Base16 image under rotation 3
the output is 128 wide and 192 high as the claim states, but the source pixel
(0, 0) is written to linear destination index 127, the last column of the
first output row, which is neither destination row H-1 column 0 (linear index
(H-1)*W = 24448) nor destination column H-1 of row 0 (linear index H-1 = 191)
for H = 192 the post-rotation height. -/
theorem rotation3OriginCounterexample :
    destIndex 3 (PCDLumaWidth.getD kBase16 0) (PCDLumaHeight.getD kBase16 0) 1 0 0 = 127 ∧
    (getHeight 3 kBase16 - 1) * getWidth 3 kBase16 = 24448 ∧
    getHeight 3 kBase16 - 1 = 191 ∧
    ((127 : Nat) ≠ 24448) ∧ ((127 : Nat) ≠ 191) := by
  refine ⟨by decide, by decide, by decide, by decide, by decide⟩

/-- Claim C6 (amended): for a 192 by 128 image decoded with rotation 3 the
output raster is 128 wide (getWidth) and 192 high (getHeight), and the pixel
at source position (0, 0) is written to destination position (0, W-1), the
last column of the first row, where W is the post-rotation width: its linear
destination index is (W-1) times the stride. -/
theorem rotation3Origin : ∀ d : Nat,
    getWidth 3 kBase16 = 128 ∧ getHeight 3 kBase16 = 192 ∧
    destIndex 3 (PCDLumaWidth.getD kBase16 0) (PCDLumaHeight.getD kBase16 0) d 0 0 =
      (getWidth 3 kBase16 - 1) * d := by
  intro d
  refine ⟨by decide, by decide, ?_⟩
  simp [destIndex, getWidth, PCDLumaWidth, PCDLumaHeight, kBase16]

/-! ## Claim C9 -/

/-- Claim C9: every call of populateFloatBuffers, populateUInt16Buffers or
populateUInt8Buffers on a decoder whose file header is NULL (no parseFile
succeeded) returns through the early exit: nothing is written to the caller
supplied buffers for any pixel, and no decoder state changes. -/
theorem populateWithoutFileWritesNothing (st : DecodeState) (hasAlpha : Bool)
    (d row col : Nat) (h : st.pcdFileHeader = none) :
    populateFloatBuffers st hasAlpha d row col = none ∧
    populateUInt16Buffers st hasAlpha d row col = none ∧
    populateUInt8Buffers st hasAlpha d row col = none := by
  refine ⟨?_, ?_, ?_⟩ <;>
    simp [populateFloatBuffers, populateUInt16Buffers, populateUInt8Buffers,
      populateBuffers, h]

/-- Claim C9 witness: the theorem applied to the freshly constructed decoder,
whose header is NULL. -/
theorem populateWithoutFileWritesNothingWitness :
    populateFloatBuffers initialState true 1 0 0 = none ∧
    populateUInt16Buffers initialState true 1 0 0 = none ∧
    populateUInt8Buffers initialState true 1 0 0 = none :=
  populateWithoutFileWritesNothing initialState true 1 0 0 rfl

/-! ## Claim C1 theorems -/

set_option maxRecDepth 40000 in
/-- Claim C1 counterexample: on a parsed decoder with chroma planes intact,
setIsMonoChrome(true) then setIsMonoChrome(false) followed by populate does
not reproduce the output of the decoder that never had monochrome set: at
source pixel (0, 0) in 8-bit raw output the blue sample is uint8Output[544]
= 99 after the toggle but uint8Output[934] = 171 on the untouched decoder,
because the monochrome flag is still set after the toggle and chroma is
ignored. -/
theorem monochromeToggleCounterexample :
    ((populateUInt8Buffers (setIsMonoChrome (setIsMonoChrome chromaDemoState true) false)
        false 1 0 0).map (fun w => w.blue) = some (OutSample.u8 99)) ∧
    ((populateUInt8Buffers chromaDemoState false 1 0 0).map (fun w => w.blue) =
      some (OutSample.u8 171)) ∧
    (OutSample.u8 99 ≠ OutSample.u8 171) := by
  refine ⟨by decide, by decide, by decide⟩

/-- Claim C1 (amended): setIsMonoChrome ors its argument into the flag, so
setIsMonoChrome(true) followed by setIsMonoChrome(false) leaves the decoder
monochrome, and every populate call afterwards produces, for every output
pixel and format, exactly the monochrome output (the output of the same
decoder with monochrome set), not the output of a decoder that never had
monochrome set. -/
theorem monochromeToggleSticky : ∀ (st : DecodeState) (hasAlpha : Bool)
    (d dataSize row col : Nat),
    (setIsMonoChrome (setIsMonoChrome st true) false).monochrome = true ∧
    populateBuffers (setIsMonoChrome (setIsMonoChrome st true) false)
        hasAlpha d dataSize row col =
      populateBuffers { st with monochrome := true } hasAlpha d dataSize row col := by
  intro st hasAlpha d dataSize row col
  have hst : setIsMonoChrome (setIsMonoChrome st true) false =
      { st with monochrome := true } := by
    simp [setIsMonoChrome]
  exact ⟨by rw [hst], by rw [hst]⟩

/-! ## Claim C10 -/

/-- Claim C10: for every select index at or above kMaxPCDMetadata (20), and
for every call made while no file is parsed (header NULL), getMetadata
writes the literal string Error into the value buffer and into the
description buffer when that pointer is non-null, and writes no other
metadata. -/
theorem getMetadataErrorGuard (asctimeF filmName : Nat → String)
    (st : DecodeState) (select : Nat) (hasDescription : Bool)
    (hsel : kMaxPCDMetadata ≤ select ∨ st.pcdFileHeader = none) :
    getMetadata asctimeF filmName st select hasDescription =
      (if hasDescription then some "Error" else none, "Error") := by
  cases hh : st.pcdFileHeader with
  | none => simp [getMetadata, hh]
  | some hdr =>
    rcases hsel with hsel | hnone
    · simp [getMetadata, hh, hsel]
    · rw [hh] at hnone; simp at hnone

/-- Claim C10 witness: the theorem applied at select 20 on a loaded header
and at select 0 on the fresh decoder. -/
theorem getMetadataErrorGuardWitness :
    getMetadata (fun _ => "") (fun _ => "") chromaDemoState 20 true =
      (some "Error", "Error") ∧
    getMetadata (fun _ => "") (fun _ => "") initialState 0 false =
      (none, "Error") := by
  constructor
  · have := getMetadataErrorGuard (fun _ => "") (fun _ => "") chromaDemoState 20 true
      (Or.inl (by decide))
    simpa using this
  · have := getMetadataErrorGuard (fun _ => "") (fun _ => "") initialState 0 false
      (Or.inr rfl)
    simpa using this

theorem readBaseLoop_le (ok : Nat → Bool) : ∀ s : Nat, readBaseLoop ok s ≤ (s : Int) := by
  intro s
  induction s with
  | zero => simp [readBaseLoop]; split <;> omega
  | succ s ih =>
    rw [readBaseLoop]
    split
    · omega
    · refine le_trans ih ?_
      push_cast
      omega

theorem readBaseImage_le (sceneNumber : Nat) (ok : Nat → Bool) :
    readBaseImage sceneNumber ok ≤ (sceneNumber : Int) := by
  refine le_trans (readBaseLoop_le ok (min sceneNumber kBase)) ?_
  have := Nat.min_le_left sceneNumber kBase
  push_cast
  omega

/-! ## Claim C3 -/

theorem parseDeltaStage_le (env : ParseEnv) (sceneNumber : Nat) (st : DecodeState) :
    (parseDeltaStage env sceneNumber st).1 ≤ sceneNumber := by
  unfold parseDeltaStage
  dsimp only
  split
  · split
    · simp
    · split
      · simp [kBase, k4Base] at *; omega
      · split
        · split
          · simp [k4Base, k16Base] at *; omega
          · split
            · split <;> simp [k16Base, k64Base] at * <;> omega
            · simp
        · simp
  · simp

theorem clampToResolution_le (sceneNumber imageResolution : Nat) :
    clampToResolution sceneNumber imageResolution ≤ sceneNumber := by
  unfold clampToResolution
  split
  · exact Nat.min_le_left _ _
  · exact le_refl _

theorem sceneAfterBase_readBase_le (sceneNumber : Nat) (ok : Nat → Bool) :
    sceneAfterBase sceneNumber (readBaseImage sceneNumber ok) ≤ sceneNumber := by
  unfold sceneAfterBase
  split
  · have := readBaseImage_le sceneNumber ok
    omega
  · exact le_refl _

theorem parseFile_scene_le (env : ParseEnv) (sNum : Nat) (st0 : DecodeState) :
    (parseFile env sNum st0).1 = false ∨
    (parseFile env sNum st0).2.sceneNumber ≤ sNum := by
  unfold parseFile
  dsimp only
  split
  · exact Or.inl rfl
  split
  · exact Or.inl rfl
  split
  · exact Or.inl rfl
  split
  · exact Or.inl rfl
  split
  · exact Or.inl rfl
  split
  · exact Or.inl rfl
  · refine Or.inr ?_
    simp only
    refine le_trans (parseDeltaStage_le env _ _) ?_
    refine le_trans (sceneAfterBase_readBase_le _ env.baseReadOk) ?_
    exact clampToResolution_le _ _

/-! ## Claim C2 -/

/-- Claim C2 (code bug evidence): requesting SixtyFourBase from the valid
primary file with the malformed companion, parseFile returns true and the
decoded level drops to SixteenBase exactly as the claim states, but the
error string stays empty and in particular never mentions 64Base: every
write of the 64Base warning in parseICFile and parseFile sits behind an
errorString == NULL guard, which is always false for the char array member,
so the intended message "Error while processing 64Base image" is never
stored. -/
theorem parse64BaseFallbackLeavesNoWarning :
    (parseFile demoParseEnv k64Base initialState).1 = true ∧
    (parseFile demoParseEnv k64Base initialState).2.sceneNumber = k16Base ∧
    getErrorString (parseFile demoParseEnv k64Base initialState).2 = "" := by
  refine ⟨by decide, by decide, by decide⟩

/-- Claim C3: whenever parseFile succeeds, the decoded scene number lies
between kBase16 and the requested level, through every downgrade path: the
base image fallback, a 4Base failure, a 16Base failure and a 64Base
failure. -/
theorem parseFileLevelBounds (env : ParseEnv) (sNum : Nat) (st0 : DecodeState)
    (hreq : sNum ≤ k64Base)
    (hok : (parseFile env sNum st0).1 = true) :
    kBase16 ≤ (parseFile env sNum st0).2.sceneNumber ∧
    (parseFile env sNum st0).2.sceneNumber ≤ sNum := by
  refine ⟨by simp [kBase16], ?_⟩
  rcases parseFile_scene_le env sNum st0 with hfalse | hle
  · rw [hok] at hfalse; simp at hfalse
  · exact hle

/-- Claim C3 witness: the level bound theorem applied to a concrete
successful parse at requested level k64Base whose companion file fails. -/
theorem parseFileLevelBoundsWitness :
    kBase16 ≤ (parseFile demoParseEnv k64Base initialState).2.sceneNumber ∧
    (parseFile demoParseEnv k64Base initialState).2.sceneNumber ≤ k64Base :=
  parseFileLevelBounds demoParseEnv k64Base initialState (by decide) (by decide)

end Pcd
